import Mathlib

/-!
# Verification of the NeuPrint derivation pipeline

A shallow embedding, in Lean 4, of the scoring/derivation pipeline found in
`src/lib/server/derive.ts`, `src/lib/server/derive/rc.ts` and
`src/lib/server/derive/rfs.ts`.  The pipeline is a pure, synchronous
computation over JSON-like records, so it is embedded as total functions over
an inductive `Json` type; code paths that throw JavaScript exceptions
(validation errors, `TypeError`s on property access of `undefined`,
`new Set(...)` on a non-iterable) are embedded in the `Except String` monad.

Modelling conventions, fixed once here:

* JavaScript numbers are modelled by `ℚ`.  Every literal appearing in the
  sources (0.3, 0.62, 1e-6, …) is an exact rational, and all comparisons and
  arithmetic performed by the pipeline are exact; `NaN`/`Infinity` do not
  arise from rational arithmetic, so the sources' `isFinite` guards are
  identically true in the model and noted where they occur.
* `undefined` is modelled by `Option.none` (a missing object key); the JSON
  value `null` is `Json.null`.  Both are "nullish" and falsy, as in JS.
* Non-numeric values sitting in a position the code coerces with `Number(…)`,
  `x || d` or arithmetic are modelled as `0`/the default.  No claim below
  depends on inputs that put strings or objects into numeric fields.
* `Math.sqrt` and `Math.log` are irrational-valued, hence not representable
  in `ℚ`.  The RC "agency indicators" module is the only consumer; it is
  embedded with the rational stand-ins `jsSqrt`/`jsLog` (see their
  doc-comments).  Every theorem below exercises those functions only on paths
  where the stand-in is applied at an argument whose logarithm is `0`
  (`Math.log 1`), is multiplied by `0`, or is skipped by an early return, so
  nothing proved depends on the stand-in values.  The standalone `entropy01`
  (claim about normalised Shannon entropy) is embedded exactly, over `ℝ`
  with `Real.log`.
* Euclidean distances in the RC classifier are compared, never used
  arithmetically, so the embedding works with squared distances: `sqrt` is
  strictly monotone on the nonnegatives, hence `d < 0.12 ↔ d² < 0.0144` and
  `d < 0.22 ↔ d² < 0.0484`, and the argmin over distances equals the argmin
  over squared distances.
-/

/- Batteries marks the `Rat` arithmetic operations `@[irreducible]`, which
blocks elaborator-side evaluation (`decide`/`rfl`) of the pipeline on
concrete inputs.  Reducibility attributes have no bearing on kernel-checked
soundness; restoring the default makes the embedding executable in proofs. -/
set_option allowUnsafeReducibility true
attribute [semireducible] Rat.add Rat.mul Rat.sub Rat.inv Rat.ofScientific Rat.div

/-! ## JSON value model -/

/-- A JSON value, as manipulated by the pipeline.  Objects are ordered
association lists, matching JavaScript property-insertion order, which the
pipeline's merges observe via `Object.keys`. -/
inductive Json where
  | null : Json
  | bool : Bool → Json
  | num : ℚ → Json
  | str : String → Json
  | arr : List Json → Json
  | obj : List (String × Json) → Json
deriving Repr, BEq

namespace Json

/-- JS truthiness.  (`NaN` does not arise in the `ℚ` model; the empty string,
`0`, `false`, `null`/`undefined` are falsy, objects and arrays truthy.) -/
def truthy : Json → Bool
  | .null => false
  | .bool b => b
  | .num q => q ≠ 0
  | .str s => s ≠ ""
  | .arr _ => true
  | .obj _ => true

/-- First binding of key `k` in an association list (JS objects have unique
keys; on a duplicated key, JS property access yields the stored value and the
model's first binding, consistently with `setKey` below updating the first). -/
def lookupJ : List (String × Json) → String → Option Json
  | [], _ => none
  | (k', v) :: rest, k => if k' = k then some v else lookupJ rest k

/-- `target[k] = v` on a JS object: updates the first binding of `k` in place,
or appends a new binding (JS appends new keys in insertion order). -/
def setKey : List (String × Json) → String → Json → List (String × Json)
  | [], k, v => [(k, v)]
  | (k', v') :: rest, k, v =>
      if k' = k then (k, v) :: rest else (k', v') :: setKey rest k v

/-- Property access `j?.k` — `none` both when `j` is not an object
(optional chaining / absent property) and when the key is missing. -/
def getField (j : Json) (k : String) : Option Json :=
  match j with
  | .obj es => lookupJ es k
  | _ => none

/-- Path lookup `j?.k₁?.k₂…`. -/
def getPath (j : Json) : List String → Option Json
  | [] => some j
  | k :: ks => match getField j k with
      | some v => getPath v ks
      | none => none

/-- Top-level keys of an object (empty for non-objects). -/
def topKeys : Json → List String
  | .obj es => es.map Prod.fst
  | _ => []

/-- `a ?? b` over possibly-missing values: JS nullish coalescing, where both
`undefined` (`none`) and `null` fall through. -/
def nn (a : Option Json) (b : Option Json) : Option Json :=
  match a with
  | some .null => b
  | none => b
  | some v => some v

/-- Keep a possibly-missing value only when it is truthy (models a
`x ? … : …` test on the result of a `??`-chain). -/
def truthyOpt : Option Json → Option Json
  | some v => if v.truthy then some v else none
  | none => none

end Json

/-! ## The deep merge of `derive.ts` (also inlined in `rc.ts`/`rfs.ts`)

```ts
function deepMergeInto(target: any, src: any) {
  if (!src || typeof src !== "object") return;
  for (const k of Object.keys(src)) {
    const sv = src[k];
    const tv = target[k];
    if (tv && typeof tv === "object" && sv && typeof sv === "object" &&
        !Array.isArray(tv) && !Array.isArray(sv)) {
      deepMergeInto(tv, sv);
    } else {
      target[k] = sv;
    }
  }
}
```

The recursive branch fires exactly when both values are non-null, non-array
objects, i.e. both are `Json.obj` in the model.  The in-place mutation of
`target` becomes a fold producing the new object; updating a key in place
preserves its position, so insertion order is preserved exactly as in JS.
`src` values that are not objects leave the target unchanged; an *array* src
would enumerate its indices in JS, but every merge source in the pipeline is
a plain object, so that case is modelled as the same no-op. -/

mutual

/-- Structural size of a JSON value (recursing only into objects, which is
where the merge recursion descends). -/
def jsize : Json → ℕ
  | Json.obj es => 1 + jsizeL es
  | _ => 1

/-- Structural size of an object's entry list. -/
def jsizeL : List (String × Json) → ℕ
  | [] => 1
  | (_, v) :: rest => 1 + jsize v + jsizeL rest

end

/-- One pass of `deepMergeInto` over the entries of the source object,
with an explicit fuel parameter driving the structural recursion (the real
recursion is on the size of the source, which the fuel dominates; see
`mergeObjF_congr`). -/
def mergeObjF : ℕ → List (String × Json) → List (String × Json) → List (String × Json)
  | 0, t, _ => t
  | _ + 1, t, [] => t
  | fuel + 1, t, (k, sv) :: rest =>
      match Json.lookupJ t k, sv with
      | some (Json.obj tvs), Json.obj svs =>
          mergeObjF fuel (Json.setKey t k (Json.obj (mergeObjF fuel tvs svs))) rest
      | _, _ => mergeObjF fuel (Json.setKey t k sv) rest

/-- One pass of `deepMergeInto` over the entries of the source object: for
each source key in order, either recursively merge (both values plain
objects) or overwrite the target binding. -/
def mergeObj (t s : List (String × Json)) : List (String × Json) :=
  mergeObjF (jsizeL s) t s

/-- `deepMergeInto(target, src)` as a pure function. -/
def deepMergeInto (t s : Json) : Json :=
  match t, s with
  | Json.obj ts, Json.obj ss => Json.obj (mergeObj ts ss)
  | _, _ => t

/-- `deepMergeAll(...objs)`: fold the merge over a fresh empty object. -/
def deepMergeAll (objs : List Json) : Json :=
  objs.foldl deepMergeInto (Json.obj [])

/-- `Object.assign(t, s)`: shallow copy of the source's own keys. -/
def objAssign (t s : Json) : Json :=
  match t, s with
  | Json.obj ts, Json.obj ss =>
      Json.obj (ss.foldl (fun acc kv => Json.setKey acc kv.1 kv.2) ts)
  | _, _ => t

/-- Object spread `{...a, ...b}`.  Non-object operands contribute no keys
(accurate for all pipeline inputs; JS would enumerate index keys of strings
and arrays, which never reach a spread here). -/
def spread2 (a b : Json) : Json :=
  let ea := match a with | Json.obj es => es | _ => []
  match b with
  | Json.obj es => Json.obj (es.foldl (fun acc kv => Json.setKey acc kv.1 kv.2) ea)
  | _ => Json.obj ea

/-- Split a character list at every occurrence of `sep` (the separator is
dropped; adjacent separators yield empty fragments, as JS `"".split`). -/
def splitCharAux (sep : Char) : List Char → List (List Char)
  | [] => [[]]
  | c :: cs =>
      match splitCharAux sep cs with
      | w :: ws => if c = sep then [] :: w :: ws else (c :: w) :: ws
      | [] => [[]]

/-- `s.split(sep)` for a single-character separator. -/
def splitChar (sep : Char) (s : String) : List String :=
  (splitCharAux sep s.toList).map String.mk

/-- `Number(s)` restricted to digit strings: `none` on the empty string
(the call site treats JS `Number("") = 0` via its own `|| 0` fallback). -/
def digitsToNat (cs : List Char) : Option ℕ :=
  match cs with
  | [] => none
  | _ => some (cs.foldl (fun n c => n * 10 + (c.toNat - 48)) 0)

/-- Insert `x` into `acc` after every element that weakly precedes it
(`le y x = true` means `y` stays before `x`). -/
def insertLe (le : α → α → Bool) : List α → α → List α
  | [], x => [x]
  | y :: ys, x => if le y x then y :: insertLe le ys x else x :: y :: ys

/-- Stable sort by a boolean total preorder, as JS `Array.prototype.sort`
with a consistent comparator (stable per ES2019): each element is inserted
after its weak predecessors, preserving the relative order of ties. -/
def sortJs (le : α → α → Bool) (l : List α) : List α :=
  l.foldl (insertLe le) []

/-! ## Shared numeric helpers

The sources define `clamp01`, `safeDiv`, `round2` etc. repeatedly per module;
all variants coincide over `ℚ` (they differ only in `NaN`/`Infinity`
handling, which cannot arise here) and are defined once. -/

/-- JS `Math.round`: round half toward `+∞`, i.e. `⌊x + 1/2⌋`. -/
def jsRound (x : ℚ) : ℤ := ⌊x + 1/2⌋

/-- `Math.round(x * 100) / 100` (two decimals). -/
def round2 (x : ℚ) : ℚ := (jsRound (x * 100) : ℚ) / 100

/-- `clamp01` (all module-local variants agree over `ℚ`). -/
def clamp01 (x : ℚ) : ℚ := if x < 0 then 0 else if x > 1 then 1 else x

/-- `clamp0to5` from `Backend_2_FRI`. -/
def clamp0to5 (x : ℚ) : ℚ := max 0 (min 5 x)

/-- `safeDiv(a, b) = a / max(1, b)` (the `rc.ts` A/D/R and CFF variant). -/
def safeDiv (a b : ℚ) : ℚ := a / max 1 b

/-- `sat(x, k) = max(0,x) / (max(0,x) + k)`, the saturating map. -/
def sat (x k : ℚ) : ℚ := let xx := max 0 x; xx / (xx + k)

/-- JS `Number(x)` on the JSON values that reach numeric coercion sites.
Strings/arrays/objects in numeric positions are coerced to `0` by convention
(see the header); no claim depends on such inputs. -/
def toNumberJs : Json → ℚ
  | .num q => q
  | .bool true => 1
  | .bool false => 0
  | _ => 0

/-- `Number(x ?? 0)` over a possibly-missing value. -/
def numOfNN (o : Option Json) : ℚ :=
  toNumberJs ((Json.nn o (some (Json.num 0))).getD (Json.num 0))

/-- Field access on a possibly-missing object: `o?.k`. -/
def optField (o : Option Json) (k : String) : Option Json :=
  o.bind (fun j => j.getField k)

/-- `(input && typeof input === "object" && "analysis_input" in input)
? input.analysis_input : input` — common prologue of all four orchestrators. -/
def analysisInputOf (input : Json) : Json :=
  match input with
  | .obj es => match Json.lookupJ es "analysis_input" with
      | some v => v
      | none => .obj es
  | j => j

/-- `ai?.raw_features ?? ai?.raw ?? ai?.rawFeatures ?? ai?.raw_features_v1 ??
ai?.raw_features_v2` — the legacy-alias chain of all four orchestrators. -/
def rawFeaturesOf (ai : Json) : Option Json :=
  Json.nn (ai.getField "raw_features") (Json.nn (ai.getField "raw")
    (Json.nn (ai.getField "rawFeatures") (Json.nn (ai.getField "raw_features_v1")
      (ai.getField "raw_features_v2"))))

/-! ## RSL level classifier (`Backend_1_RSL_Level`, rfs.ts lines 768-1010) -/

inductive RSLLevelCode where
  | L1 | L2 | L3 | L4 | L5 | L6
deriving Repr, DecidableEq

/-- Order of the six levels, for the monotonicity claim. -/
def levelIdx : RSLLevelCode → ℕ
  | .L1 => 1 | .L2 => 2 | .L3 => 3 | .L4 => 4 | .L5 => 5 | .L6 => 6

def levelCodeStr : RSLLevelCode → String
  | .L1 => "L1" | .L2 => "L2" | .L3 => "L3" | .L4 => "L4" | .L5 => "L5" | .L6 => "L6"

structure RSLLevelMeta where
  level_short_name : String
  level_full_name : String
  level_description : String
deriving Repr, DecidableEq

def LEVEL_METADATA : RSLLevelCode → RSLLevelMeta
  | .L1 => ⟨"L1 Fragmented", "L1 Fragmented Reasoning",
      "Unstable reasoning with weak structure and low coherence across claims."⟩
  | .L2 => ⟨"L2 Linear", "Linear Reasoning",
      "Basic sequential reasoning with limited structural branching or evaluation."⟩
  | .L3 => ⟨"L3 Structured", "L3 Structured Reasoning",
      "Organized reasoning components with partial coordination across dimensions."⟩
  | .L4 => ⟨"L4 Coordinated", "L4 Coordinated Reasoning",
      "Multiple reasoning dimensions are coordinated with evidence support and evaluation."⟩
  | .L5 => ⟨"L5 Integrated", "L5 Integrated Reasoning",
      "Reasoning dimensions integrate into a stable, non-dominant structure with balanced evaluation."⟩
  | .L6 => ⟨"L6 Expert", "L6 Expert Reasoning",
      "Consistently expert-level reasoning with high integration, evaluation depth, and structural control."⟩

structure RSLLevelInput where
  coherence_rubric_0to5 : ℚ
  structure_rubric_0to5 : ℚ
  evaluation_rubric_0to5 : ℚ
  integration_rubric_0to5 : ℚ
  evidence_count : Option ℚ := none
  evidence_link_rate_0to1 : Option ℚ := none
  has_counterpoint : Option Bool := none
  has_refutation : Option Bool := none

structure RSLLevelFlags where
  strict_mode : Bool
  evidence_required_for_L4plus : Bool
  allow_L6 : Bool

structure RSLLevelPolicy where
  gate_L2_min : ℚ
  gate_L3_min : ℚ
  gate_L4_min : ℚ
  gate_L5_min : ℚ
  gate_L6_min : ℚ
  min_evidence_count_for_L4plus : ℚ
  min_evidence_link_rate_for_L4plus : ℚ
  strict_gate_bonus : ℚ
  l6_integration_min : ℚ

/-- `clampInt0to5`: `Math.round` then clamp to `0..5` (non-finite → 0 cannot
arise over `ℚ`). -/
def clampInt0to5 (x : ℚ) : ℤ :=
  let r := jsRound x
  if r < 0 then 0 else if r > 5 then 5 else r

/-- `clamp01(x: number | undefined)` of `Backend_1`: `undefined` → 0. -/
def clamp01opt (x : Option ℚ) : ℚ :=
  match x with
  | some v => if v < 0 then 0 else if v > 1 then 1 else v
  | none => 0

/-- `bool(x) = (x === true)`. -/
def boolOpt (x : Option Bool) : Bool := x = some true

def evidenceOK (inp : RSLLevelInput) (policy : RSLLevelPolicy)
    (flags : RSLLevelFlags) : Bool :=
  if !flags.evidence_required_for_L4plus then true
  else
    let evCount := inp.evidence_count.getD 0
    let evLink := clamp01opt inp.evidence_link_rate_0to1
    if evCount < policy.min_evidence_count_for_L4plus then false
    else if evLink < policy.min_evidence_link_rate_for_L4plus then false
    else true

def adjustedGate (base : ℚ) (flags : RSLLevelFlags) (policy : RSLLevelPolicy) : ℚ :=
  let b : ℚ := (clampInt0to5 base : ℤ)
  let add := if flags.strict_mode then policy.strict_gate_bonus else 0
  let out := b + add
  if out < 0 then 0 else if out > 5 then 5 else out

structure RSLGates where
  L2 : Bool
  L3 : Bool
  L4 : Bool
  L5 : Bool
  L6 : Bool
deriving Repr, DecidableEq

structure RSLLevelResult where
  level : RSLLevelCode
  meta : RSLLevelMeta
  rubric_min : ℤ
  rubric_mean_0to5 : ℚ
  evidence_ok : Bool
  gates : RSLGates
deriving Repr, DecidableEq

/-- The sequence of `if (passLk) level = Lk` assignments: the last passing
gate wins. -/
def levelFromGates (g : RSLGates) : RSLLevelCode :=
  if g.L6 then .L6 else if g.L5 then .L5 else if g.L4 then .L4
  else if g.L3 then .L3 else if g.L2 then .L2 else .L1

def computeRSLLevel (inp : RSLLevelInput) (flags : RSLLevelFlags)
    (policy : RSLLevelPolicy) : RSLLevelResult :=
  let coherence := clampInt0to5 inp.coherence_rubric_0to5
  let structureR := clampInt0to5 inp.structure_rubric_0to5
  let evaluation := clampInt0to5 inp.evaluation_rubric_0to5
  let integration := clampInt0to5 inp.integration_rubric_0to5
  let rubricMin := min (min coherence structureR) (min evaluation integration)
  let rubricMean : ℚ := ((coherence + structureR + evaluation + integration : ℤ) : ℚ) / 4
  let g2 := adjustedGate policy.gate_L2_min flags policy
  let g3 := adjustedGate policy.gate_L3_min flags policy
  let g4 := adjustedGate policy.gate_L4_min flags policy
  let g5 := adjustedGate policy.gate_L5_min flags policy
  let g6 := adjustedGate policy.gate_L6_min flags policy
  let evOK := evidenceOK inp policy flags
  let hasCounter := boolOpt inp.has_counterpoint
  let hasRefute := boolOpt inp.has_refutation
  let passL2 := decide ((rubricMin : ℚ) ≥ g2)
  let passL3 := decide ((rubricMin : ℚ) ≥ g3)
  let passL4 := decide ((rubricMin : ℚ) ≥ g4) && evOK
  let passL5Base := decide ((rubricMin : ℚ) ≥ g5) && evOK
  let passL5 := if flags.strict_mode then passL5Base && (hasCounter || hasRefute) else passL5Base
  let passL6 := flags.allow_L6 && passL5 && decide ((rubricMin : ℚ) ≥ g6) &&
      decide ((integration : ℚ) ≥ policy.l6_integration_min)
  let gates : RSLGates := ⟨passL2, passL3, passL4, passL5, passL6⟩
  let level := levelFromGates gates
  { level := level
    meta := LEVEL_METADATA level
    rubric_min := rubricMin
    rubric_mean_0to5 := rubricMean
    evidence_ok := evOK
    gates := gates }

/-- The nested minimum of the four clamped rubric scores, exactly as
`computeRSLLevel` forms its `rubricMin` (an abbreviation for the
monotonicity analysis). -/
def rubricMinOf (i : RSLLevelInput) : ℤ :=
  min (min (clampInt0to5 i.coherence_rubric_0to5) (clampInt0to5 i.structure_rubric_0to5))
    (min (clampInt0to5 i.evaluation_rubric_0to5) (clampInt0to5 i.integration_rubric_0to5))

/-! ## FRI (`Backend_2_FRI`, rfs.ts lines 1039-1104) -/

/-- `CRS = 0.3·R3 + 0.4·R4 + 0.3·R5` (after clamping each rubric to 0..5). -/
def friCRS (R3 R4 R5 : ℚ) : ℚ :=
  0.3 * clamp0to5 R3 + 0.4 * clamp0to5 R4 + 0.3 * clamp0to5 R5

/-- `RM = 0.85 + (R6/5) × 0.3`. -/
def friRM (R6 : ℚ) : ℚ := 0.85 + clamp0to5 R6 / 5 * 0.3

def friNote (fri : ℚ) : String :=
  if fri ≤ 0.79 then
    "Your reasoning structure is still taking shape. Ideas often appear separately, making connections harder to follow."
  else if fri ≤ 1.59 then
    "Early signs of structure are beginning to appear. Some steps are present, but connections and checks are not yet consistent."
  else if fri ≤ 2.39 then
    "A basic reasoning structure is forming. Key steps align, though stability can drop as complexity increases."
  else if fri ≤ 3.19 then
    "Your reasoning structure works well overall. Most ideas connect, with occasional gaps in validation or monitoring."
  else if fri ≤ 3.99 then
    "Your reasoning structure is stable in most situations. Connections and evaluations usually remain consistent."
  else
    "You can reason structurally even in complex situations. Your thinking stays stable and self-regulated as ideas scale."

/-- The rounded, clamped FRI score. -/
def friScoreOf (R3 R4 R5 R6 : ℚ) : ℚ :=
  round2 (clamp0to5 (friCRS R3 R4 R5 * friRM R6))

/-- `computeFRI`: returns the `{ rsl: { fri: { score, interpretation } } }`
record produced by the source. -/
def computeFRI (R3 R4 R5 R6 : ℚ) : Json :=
  let friRounded := friScoreOf R3 R4 R5 R6
  Json.obj [("rsl", Json.obj [("fri", Json.obj
    [("score", Json.num friRounded),
     ("interpretation", Json.str (friNote friRounded))])])]

/-! ## Cohort (`Backend_3_Cohort`, rfs.ts lines 1126-1213) -/

/-- The source's `round4` (despite the name it keeps three decimals). -/
def round4 (x : ℚ) : ℚ := (jsRound (x * 1000) : ℚ) / 1000

/-- `percentile0to1`: fraction of the cohort strictly below the value,
`0.5` for an empty cohort. -/
def percentile0to1 (friValue : ℚ) (cohortFriList : List ℚ) : ℚ :=
  if cohortFriList.isEmpty then 0.5
  else
    let lower := (cohortFriList.filter (fun x => x < friValue)).length
    round4 ((lower : ℚ) / (cohortFriList.length : ℚ))

def topPercentLabel (percentile : ℚ) : String :=
  let topPercent := jsRound ((1 - percentile) * 100)
  if topPercent ≤ 1 then "Top 1%" else "Top " ++ toString topPercent ++ "%"

def cohortInterpretationFromTopPercent (t : ℚ) : String :=
  if t ≥ 50 then
    "Core reasoning steps are emerging, with structure still developing compared to most peers."
  else if t ≥ 30 then
    "Developing structure, with several reasoning patterns beginning to align relative to comparable peers."
  else if t ≥ 20 then
    "Generally well-structured reasoning compared to most peers, with room for further stabilization."
  else if t ≥ 10 then
    "Consistently structured reasoning relative to comparable peers."
  else if t ≥ 5 then
    "Highly consistent reasoning structure compared to most peers, even as complexity increases."
  else
    "Exceptionally stable reasoning structure within the current comparison group."

/-! ## CFF indicators (`Backend_7_CFF`, rc.ts lines 1909-2171) -/

/-- `raw.k || 0` for a numeric field (absent/`null`/other → 0; a numeric `0`
also yields 0 via either branch). -/
def jsNum0 (j : Json) (k : String) : ℚ :=
  match j.getField k with
  | some (Json.num q) => q
  | _ => 0

/-- `raw.k || 1` (absent, `null`, `0` → 1). -/
def jsNum1 (j : Json) (k : String) : ℚ :=
  match j.getField k with
  | some (Json.num q) => if q = 0 then 1 else q
  | _ => 1

/-- `!!raw.k`. -/
def truthyField (j : Json) (k : String) : Bool :=
  match j.getField k with
  | some v => v.truthy
  | none => false

/-- `structureWeight` (`v1.0` fixed values; any other string and the default
fall to `linear` = 0.3). -/
def structureWeight (st : Option String) : ℚ :=
  match st with
  | some "hierarchical" => 0.6
  | some "networked" => 1.0
  | _ => 0.3

/-- Number of distinct elements of a list, JS `Set` semantics
(SameValueZero; structural equality on the JSON values — in the pipeline the
elements are strings, where the two coincide). -/
def distinctCount (xs : List Json) : ℕ :=
  (xs.foldl (fun acc x => if acc.contains x then acc else acc ++ [x]) []).length

/-- `raw.evidence_types ? new Set(raw.evidence_types) : new Set()`, sized.
A truthy non-iterable value (number, boolean, plain object) makes
`new Set(...)` throw a `TypeError`; a string is iterated character-wise. -/
def evidenceTypesSize (raw : Json) : Except String ℕ :=
  match raw.getField "evidence_types" with
  | some v =>
      if !v.truthy then pure 0
      else match v with
        | Json.arr xs => pure (distinctCount xs)
        | Json.str s => pure (distinctCount (s.data.map (fun c => Json.str (String.mk [c]))))
        | _ => Except.error "TypeError: object is not iterable (new Set on evidence_types)"
  | none => pure 0

/-- `computeCFF6_v1`: the six fixed indicator formulas, reading the *flat*
`RawFeaturesV1` field names off the given record.  (The orchestrator passes
the nested `raw_features` record here, whose counts live under `layer_0…3`;
the flat reads then all default — see `deriveCff`.) -/
def computeCFF6_v1 (raw : Json) : Except String Json := do
  let U := max 1 ⌊jsNum1 raw "units"⌋
  let C := max 0 (jsNum0 raw "claims")
  let R := max 0 (jsNum0 raw "reasons")
  let E := max 0 (jsNum0 raw "evidence")
  let sub := max 0 (jsNum0 raw "sub_claims")
  let W := max 0 (jsNum0 raw "warrants")
  let st : Option String := match raw.getField "structure_type" with
    | some (Json.str s) => some s
    | _ => none
  let T := max 0 (jsNum0 raw "transitions")
  let Tok := max 0 (jsNum0 raw "transition_ok")
  let hedges := max 0 (jsNum0 raw "hedges")
  let loops := max 0 (jsNum0 raw "loops")
  let rev := max 0 (jsNum0 raw "revisions")
  let revDepthSum := max 0 (jsNum0 raw "revision_depth_sum")
  let beliefChange := truthyField raw "belief_change"
  let intentMarkers := max 0 (jsNum0 raw "intent_markers")
  let driftSeg := max 0 (jsNum0 raw "drift_segments")
  let evTypesSize ← evidenceTypesSize raw
  -- 1) AAS
  let hierarchy_ratio := safeDiv sub C
  let warrant_ratio := safeDiv W C
  let structure_weight := structureWeight st
  let AAS := clamp01 (0.4 * hierarchy_ratio + 0.4 * warrant_ratio + 0.2 * structure_weight)
  -- 2) CTF
  let transition_density := safeDiv T (U : ℚ)
  let valid_transition_ratio := safeDiv Tok T
  let CTF := clamp01 (0.6 * transition_density + 0.4 * valid_transition_ratio)
  -- 3) RMD
  let progress_rate := safeDiv R (U : ℚ)
  let friction_rate := safeDiv (hedges + loops) (U : ℚ)
  let RMD := clamp01 (0.5 + (progress_rate - friction_rate))
  -- 4) RDX
  let depth_avg := safeDiv revDepthSum rev
  let belief_bonus : ℚ := if beliefChange then 0.2 else 0
  let RDX := clamp01 (0.7 * depth_avg + belief_bonus)
  -- 5) EDS
  let type_diversity := safeDiv (evTypesSize : ℚ) 4
  let evidence_density := safeDiv E C
  let EDS := clamp01 (0.6 * type_diversity + 0.4 * evidence_density)
  -- 6) IFD
  let intent_strength : ℚ := if intentMarkers > 0 then 1.0 else 0.5
  let drift_rate := safeDiv driftSeg (U : ℚ)
  let IFD := clamp01 (intent_strength - drift_rate)
  pure (Json.obj [("AAS", Json.num AAS), ("CTF", Json.num CTF),
    ("RMD", Json.num RMD), ("RDX", Json.num RDX),
    ("EDS", Json.num EDS), ("IFD", Json.num IFD)])

/-! ## Observed reasoning patterns (`Backend_5`, rc.ts lines 1525-1907) -/

inductive ProfileCode where
  | RE | IE | EW | AR | SI | RR | HE | MD
deriving Repr, DecidableEq

def profileCodeStr : ProfileCode → String
  | .RE => "RE" | .IE => "IE" | .EW => "EW" | .AR => "AR"
  | .SI => "SI" | .RR => "RR" | .HE => "HE" | .MD => "MD"

structure ProfileMeta where
  label : String
  description : String

def OBSERVED_PROFILE_META : ProfileCode → ProfileMeta
  | .RE => ⟨"Reflective Explorer",
      "Reflective Explorer shows active self-revision and exploratory restructuring during reasoning. Thought progresses through reflection, reassessment, and adaptive refinement."⟩
  | .IE => ⟨"Intuitive Explorer",
      "Intuitive Explorer advances reasoning through associative leaps and conceptual exploration. Structure emerges gradually rather than being predefined."⟩
  | .EW => ⟨"Evidence Weaver",
      "Evidence Weaver emphasizes linking claims with supporting material. Reasoning strength lies in evidence connectivity rather than abstract inference."⟩
  | .AR => ⟨"Analytical Reasoner",
      "Analytical Reasoner breaks a problem into explicit components and evaluates them through stepwise logic. Reasoning emphasizes clear structure, rule-based validation, and consistency across claims and supporting points."⟩
  | .SI => ⟨"Strategic Integrator",
      "Strategic Integrator aligns multiple reasoning strands into a unified direction. Decision-making reflects coordination and long-term framing."⟩
  | .RR => ⟨"Reflective Regulator",
      "Reflective Regulator actively monitors and controls reasoning boundaries. This type prioritizes balance, restraint, and intentional stopping points."⟩
  | .HE => ⟨"Human Expressionist",
      "Human Expressionist expresses reasoning through narrative and contextual meaning. Communication clarity and human resonance are central."⟩
  | .MD => ⟨"Machine-Dominant",
      "Machine-Dominant pattern reflects heavy dependence on automated or system-driven reasoning flow. Human agency signals are limited."⟩

/-- The `CoreAxes` record as read off the (arbitrary) value the orchestrator
passes: eleven named properties, each a number or missing. -/
structure CoreAxes where
  AAS : Option ℚ := none
  CTF : Option ℚ := none
  RMD : Option ℚ := none
  RDX : Option ℚ := none
  EDS : Option ℚ := none
  IFD : Option ℚ := none
  KPF : Option ℚ := none
  TPS : Option ℚ := none
  Analyticity : Option ℚ := none
  Flow : Option ℚ := none
  MetacogRaw : Option ℚ := none

/-- Numeric property or `none` (`undefined`/`null` compare `== null` in the
source's guards; non-numeric values are treated as missing per convention). -/
def numFieldOpt (j : Json) (k : String) : Option ℚ :=
  match j.getField k with
  | some (Json.num q) => some q
  | _ => none

def coreAxesOfJson (j : Json) : CoreAxes :=
  { AAS := numFieldOpt j "AAS", CTF := numFieldOpt j "CTF"
    RMD := numFieldOpt j "RMD", RDX := numFieldOpt j "RDX"
    EDS := numFieldOpt j "EDS", IFD := numFieldOpt j "IFD"
    KPF := numFieldOpt j "KPF", TPS := numFieldOpt j "TPS"
    Analyticity := numFieldOpt j "Analyticity", Flow := numFieldOpt j "Flow"
    MetacogRaw := numFieldOpt j "MetacogRaw" }

def weightedAvg (terms : List (Option ℚ × ℚ)) : Option ℚ :=
  let WS := terms.foldl (fun (acc : ℚ × ℚ) t =>
    match t.1 with
    | none => acc
    | some v => (acc.1 + t.2, acc.2 + v * t.2)) (0, 0)
  if WS.1 ≤ 0 then none else some (WS.2 / WS.1)

def scoreRE (core : CoreAxes) : Option ℚ :=
  weightedAvg [(core.RDX, 0.45), (core.CTF, 0.30), (core.RMD, 0.25)]

def scoreIE (core : CoreAxes) : Option ℚ :=
  match core.Flow, core.Analyticity with
  | some F, some A => some (clamp01 (0.60 * F + 0.40 * (1 - A)))
  | _, _ => none

def scoreEW (core : CoreAxes) : Option ℚ :=
  weightedAvg [(core.EDS, 0.55), (core.AAS, 0.45)]

def scoreAR (core : CoreAxes) : Option ℚ :=
  let base := weightedAvg [(core.AAS, 0.65), (core.EDS, 0.35)]
  if base = none ∧ core.CTF = none then none
  else some (clamp01 (base.getD 0 - (match core.CTF with
    | none => 0
    | some c => 0.20 * c)))

def scoreSI (core : CoreAxes) : Option ℚ :=
  match core.Analyticity, core.Flow, core.MetacogRaw with
  | some A, some F, some M => some (clamp01 (min (min A F) M))
  | _, _, _ => none

def scoreRR (core : CoreAxes) : Option ℚ :=
  weightedAvg [(core.RDX, 0.60), (core.IFD.map (fun x => 1 - x), 0.40)]

def authenticity (core : CoreAxes) : Option ℚ :=
  match core.KPF, core.TPS with
  | none, none => none
  | some K, some T => some ((1 - K + T) / 2)
  | some K, none => some (1 - K)
  | none, some T => some T

def machineScore (core : CoreAxes) : Option ℚ :=
  match core.KPF, core.TPS with
  | none, none => none
  | some K, some T => some ((K + (1 - T)) / 2)
  | some K, none => some K
  | none, some T => some (1 - T)

def scoreHE (core : CoreAxes) : Option ℚ :=
  (authenticity core).map (fun A =>
    clamp01 (0.55 * A + 0.25 * (core.CTF.getD 0) + 0.20 * (core.RMD.getD 0)))

def scoreMD (core : CoreAxes) : Option ℚ :=
  (machineScore core).map clamp01

def profileScore (core : CoreAxes) : ProfileCode → Option ℚ
  | .RE => scoreRE core
  | .IE => scoreIE core
  | .EW => scoreEW core
  | .AR => scoreAR core
  | .SI => scoreSI core
  | .RR => scoreRR core
  | .HE => scoreHE core
  | .MD => scoreMD core

/-- `passRule`: pass flag and diagnostic reasons. -/
def passRule (code : ProfileCode) (core : CoreAxes) (score : Option ℚ)
    (TH : ℚ) : Bool × List String :=
  match score with
  | none =>
      if code = .HE ∨ code = .MD then
        if core.KPF = none ∧ core.TPS = none then
          (false, ["KPF-Sim and TPS-H are not available, score is not computable"])
        else
          (false, ["KPF-Sim or TPS-H available, but required inputs for score are missing"])
      else (false, ["Required indicators missing, score is not computable"])
  | some s =>
      if s ≥ TH then (true, [])
      else (false, ["score < threshold (" ++ toString TH ++ ")"])

structure ObservedProfileScore where
  code : ProfileCode
  score : Option ℚ
  pass_rule : Bool
  reason : List String
deriving Repr

/-- Render a profile entry as the JSON object `{...meta, score, pass_rule,
reason}`.  An empty reason list models the `reason: undefined` spread (the
key is materialised as JSON `null`; no merge or theorem inspects it). -/
def profileEntryJson (p : ObservedProfileScore) : Json :=
  let meta := OBSERVED_PROFILE_META p.code
  Json.obj [("code", Json.str (profileCodeStr p.code)),
    ("label", Json.str meta.label),
    ("description", Json.str meta.description),
    ("score", match p.score with | none => Json.null | some q => Json.num q),
    ("pass_rule", Json.bool p.pass_rule),
    ("reason", if p.reason.isEmpty then Json.null
      else Json.arr (p.reason.map Json.str))]

/-- All eight profile rows in the fixed backend order. -/
def allProfiles (core : CoreAxes) (TH : ℚ) : List ObservedProfileScore :=
  [ProfileCode.RE, .IE, .EW, .AR, .SI, .RR, .HE, .MD].map (fun code =>
    let s0 := profileScore core code
    let s := s0.map clamp01
    let pr := passRule code core s TH
    { code := code, score := s, pass_rule := pr.1, reason := pr.2 })

/-- `pool`: computable profiles sorted by score descending (JS stable sort). -/
def profilePool (l : List ObservedProfileScore) : List ObservedProfileScore :=
  sortJs (fun a b => a.score.getD 0 ≥ b.score.getD 0)
    (l.filter (fun p => p.score.isSome))

/-- Threshold-first selection: all above threshold, truncated to `MAX`,
backfilled to `MIN` from the sorted pool. -/
def pickedProfiles (pool : List ObservedProfileScore) (TH : ℚ) (MIN MAX : ℕ) :
    List ObservedProfileScore :=
  let picked := pool.filter (fun p => p.score.getD 0 ≥ TH)
  let picked := if picked.length > MAX then picked.take MAX else picked
  if picked.length < MIN then pool.take (min MIN pool.length) else picked

/-- `computeObservedPatternsV2` with the default options
(threshold 0.62, min 2, max 3), rendered to its output JSON. -/
def computeObservedPatternsV2 (core : CoreAxes) : Json :=
  let TH : ℚ := 0.62
  let MIN : ℕ := 2
  let MAX : ℕ := 3
  let all := allProfiles core TH
  let pool := profilePool all
  let picked := pickedProfiles pool TH MIN MAX
  Json.obj [("layer", Json.str "Cognitive Pattern Profile Layer"),
    ("selection_rule", Json.obj [("threshold", Json.num TH),
      ("min_count", Json.num MIN), ("max_count", Json.num MAX)]),
    ("all_profiles", Json.arr (all.map profileEntryJson)),
    ("profiles", Json.arr (picked.map profileEntryJson))]

/-! ## CFF final determination (`Backend_6`, rc.ts lines 2174-2595) -/

inductive DetCode where
  | T1 | T2 | T3 | T4 | T5 | T6
  | Hx1 | Hx2 | Hx3 | Hx4
  | Ax1 | Ax2 | Ax3 | Ax4
deriving Repr, DecidableEq

def detCodeStr : DetCode → String
  | .T1 => "T1" | .T2 => "T2" | .T3 => "T3" | .T4 => "T4" | .T5 => "T5" | .T6 => "T6"
  | .Hx1 => "Hx-1" | .Hx2 => "Hx-2" | .Hx3 => "Hx-3" | .Hx4 => "Hx-4"
  | .Ax1 => "Ax-1" | .Ax2 => "Ax-2" | .Ax3 => "Ax-3" | .Ax4 => "Ax-4"

structure TypeRegistryEntry where
  type_name : String
  type_description : String

/-- `TYPE_REGISTRY` — total over the 14 determination codes, so the source's
`Unknown final_code` throw is unreachable and the embedding is total. -/
def TYPE_REGISTRY : DetCode → TypeRegistryEntry
  | .T1 => ⟨"Analytical Reasoner",
      "T1. Analytical Reasoner approaches problems through structured decomposition and logical sequencing. Reasoning is driven by explicit analysis, rule-based evaluation, and clear separation of components. This pattern prioritizes correctness, internal consistency, and stepwise justification."⟩
  | .T2 => ⟨"Reflective Thinker",
      "T2. Reflective Thinker emphasizes self-monitoring and internal revision during reasoning. This pattern frequently revisits prior assumptions, adjusts interpretations, and refines conclusions through reflection. Reasoning quality is shaped by iterative reassessment rather than linear progression."⟩
  | .T3 => ⟨"Intuitive Explorer",
      "T3. Intuitive Explorer relies on associative thinking and exploratory inference. Reasoning advances through pattern recognition, conceptual leaps, and hypothesis generation rather than explicit structure. This pattern prioritizes discovery and possibility over immediate validation."⟩
  | .T4 => ⟨"Strategic Integrator",
      "T4. Strategic Integrator focuses on synthesizing multiple perspectives into a coherent direction. Reasoning involves alignment of goals, constraints, and long-term implications. This pattern emphasizes coordination, prioritization, and purposeful convergence."⟩
  | .T5 => ⟨"Human Expressionist",
      "T5. Human Expressionist centers reasoning around meaning, context, and human experience. Thought is shaped by narrative coherence, emotional nuance, and communicative clarity. This pattern prioritizes expressiveness and interpretive depth over formal structure."⟩
  | .T6 => ⟨"Machine-Dominant",
      "T6. Machine-Dominant pattern shows strong reliance on external systems or automated reasoning flows. Decision progression often mirrors templated logic or system-driven optimization. Human agency and self-directed revision signals remain limited."⟩
  | .Ax1 => ⟨"Template Generator",
      "Ax-1. Template Generator produces reasoning by following predefined structural patterns. Responses are consistent and organized but show limited adaptation beyond the template. Original restructuring signals are minimal."⟩
  | .Ax2 => ⟨"Evidence Synthesizer",
      "Ax-2. Evidence Synthesizer focuses on collecting and linking supporting information. Reasoning emphasizes aggregation and alignment of evidence rather than original inference. Conclusions emerge from evidence density rather than internal exploration."⟩
  | .Ax3 => ⟨"Style Emulator", "Ax-3. Style Emulator mirrors linguistic and structural patterns."⟩
  | .Ax4 => ⟨"Reasoning Simulator",
      "Ax-4. Reasoning Simulator reproduces the appearance of structured reasoning through iterative expansion and recombination. While transitions and revisions are present, they are driven by simulation rather than genuine internal intent formation."⟩
  | .Hx1 => ⟨"Draft-Assist",
      "Hx-1. Draft-Assist Type uses AI support primarily for initial idea formation. Human control increases in later stages through revision and refinement."⟩
  | .Hx2 => ⟨"Structure-Assist",
      "Hx-2. Structure-Assist Type relies on AI to organize and scaffold reasoning. Core ideas remain human-driven, while structural clarity is externally supported."⟩
  | .Hx3 => ⟨"Evidence-Assist",
      "Hx-3. Evidence-Assist Type leverages AI to gather or arrange supporting material. Human reasoning determines relevance and final judgment."⟩
  | .Hx4 => ⟨"Reasoning-Assist",
      "Hx-4. Reasoning-Assist Type involves AI participation in intermediate reasoning steps. Human oversight remains, but reasoning momentum is partially shared."⟩

def INTERPRETATION_REGISTRY : DetCode → Option String
  | .Ax4 => some "Reasoning Simulator reflects a reasoning structure that appears coherent and well-formed, while transitions and revisions are driven by simulated control patterns rather than direct intent formation."
  | _ => none

/-- `getActiveScore`: the indicator entry must exist, be `Active`, and carry a
finite numeric score; `TPS-H` values above 1.01 are rescaled from percent. -/
def getActiveScore (indicators : Json) (code : String) (normalizeTpsH : Bool) :
    Option ℚ :=
  match indicators.getField code with
  | none => none
  | some iv =>
      if !iv.truthy then none
      else match iv.getField "status", iv.getField "score" with
        | some (Json.str "Active"), some (Json.num q) =>
            let x := if normalizeTpsH ∧ code = "TPS-H" ∧ q > 1.01 then q / 100 else q
            some (clamp01 x)
        | _, _ => none

def confFromMargin (margin : ℚ) : ℚ :=
  let v := 0.65 + 0.7 * margin
  let v := if v < 0.55 then 0.55 else v
  let v := if v > 0.92 then 0.92 else v
  clamp01 v

/-- Missing-safe average (`avg` of `Backend_6`). -/
def avgOpt (a b : Option ℚ) : Option ℚ :=
  match a, b with
  | none, none => none
  | none, some y => some y
  | some x, none => some x
  | some x, some y => some ((x + y) / 2)

/-- The Human-track decision list (`chooseHumanT`): priority-ordered
candidates T4 > T2 > T1 > T3, falling back to `(T2, 0.6)`. -/
def chooseHumanT (Analyticity Flow MetacogRaw Regulation : Option ℚ)
    (t2ModeRegulation : Bool) : DetCode × ℚ :=
  let cand : List (ℕ × DetCode × ℚ) :=
    (match Analyticity, Flow, MetacogRaw with
      | some A, some F, some M =>
          if A ≥ 0.6 ∧ F ≥ 0.6 ∧ M ≥ 0.6 then
            [(4, DetCode.T4, confFromMargin (min (min (A - 0.6) (F - 0.6)) (M - 0.6)))]
          else []
      | _, _, _ => []) ++
    (match (if t2ModeRegulation then Regulation else MetacogRaw) with
      | some axis => if axis ≥ 0.7 then [(3, DetCode.T2, confFromMargin (axis - 0.7))] else []
      | none => []) ++
    (match Analyticity, Flow with
      | some A, some F =>
          if A ≥ 0.7 ∧ F < 0.55 then
            [(2, DetCode.T1, confFromMargin (min (A - 0.7) (0.55 - F)))]
          else []
      | _, _ => []) ++
    (match Flow, Analyticity with
      | some F, some A =>
          if F ≥ 0.7 ∧ A < 0.55 then
            [(1, DetCode.T3, confFromMargin (min (F - 0.7) (0.55 - A)))]
          else []
      | _, _ => [])
  let sorted := sortJs (fun a b =>
    a.1 > b.1 ∨ (a.1 = b.1 ∧ a.2.2 ≥ b.2.2)) cand
  match sorted with
  | [] => (DetCode.T2, 0.6)
  | c :: _ => c.2

/-- AI-track rules (`chooseAx`), evaluated in source order. -/
def chooseAx (AAS RMD RDX EDS IFD Flow MachineScore : Option ℚ) :
    Option (DetCode × ℚ) :=
  (match AAS, RDX, RMD with
    | some a, some r, some m =>
        if a ≥ 0.8 ∧ r ≤ 0.4 ∧ m ≤ 0.45 then
          some (DetCode.Ax1, confFromMargin (min (min (a - 0.8) (0.4 - r)) (0.45 - m)))
        else none
    | _, _, _ => none).orElse fun _ =>
  (match EDS, AAS, IFD with
    | some e, some a, some i =>
        if e ≥ 0.8 ∧ a ≥ 0.65 ∧ i ≤ 0.4 then
          some (DetCode.Ax2, confFromMargin (min (min (e - 0.8) (a - 0.65)) (0.4 - i)))
        else none
    | _, _, _ => none).orElse fun _ =>
  (match Flow, MachineScore with
    | some f, some ms =>
        if f ≥ 0.65 ∧ ms ≥ 0.7 then
          some (DetCode.Ax3, confFromMargin (min (f - 0.65) (ms - 0.7)))
        else none
    | _, _ => none).orElse fun _ =>
  (match AAS, RDX, IFD with
    | some a, some r, some i =>
        if a ≥ 0.75 ∧ r ≤ 0.45 ∧ i ≤ 0.35 then
          some (DetCode.Ax4, confFromMargin (min (min (a - 0.75) (0.45 - r)) (0.35 - i)))
        else none
    | _, _, _ => none)

/-- Hybrid-track rules (`chooseHx`), evaluated in source order; require KPF. -/
def chooseHx (KPF RDX AAS CTF EDS RMD : Option ℚ) : Option (DetCode × ℚ) :=
  match KPF with
  | none => none
  | some K =>
      (match RDX with
        | some r =>
            if r ≥ 0.6 ∧ K ≥ 0.25 ∧ K ≤ 0.55 then
              some (DetCode.Hx1, confFromMargin (min (min (r - 0.6) (K - 0.25)) (0.55 - K)))
            else none
        | none => none).orElse fun _ =>
      (match AAS, CTF with
        | some a, some c =>
            if a ≥ 0.6 ∧ c ≥ 0.6 ∧ K ≥ 0.25 ∧ K ≤ 0.55 then
              some (DetCode.Hx2,
                confFromMargin (min (min (min (a - 0.6) (c - 0.6)) (K - 0.25)) (0.55 - K)))
            else none
        | _, _ => none).orElse fun _ =>
      (match EDS with
        | some e =>
            if e ≥ 0.75 ∧ K ≥ 0.25 ∧ K ≤ 0.55 then
              some (DetCode.Hx3, confFromMargin (min (min (e - 0.75) (K - 0.25)) (0.55 - K)))
            else none
        | none => none).orElse fun _ =>
      (match AAS, RMD with
        | some a, some m =>
            if a ≥ 0.7 ∧ m ≤ 0.45 ∧ K ≥ 0.45 then
              some (DetCode.Hx4, confFromMargin (min (min (a - 0.7) (0.45 - m)) (K - 0.45)))
            else none
        | _, _ => none)

/-- `chooseT5T6`: authenticity-driven human subtypes. -/
def chooseT5T6 (Authenticity MachineScore : Option ℚ) : Option (DetCode × ℚ) :=
  match Authenticity, MachineScore with
  | some au, some ms =>
      if ms ≥ 0.7 ∨ au ≤ 0.4 then
        some (DetCode.T6, confFromMargin (max (ms - 0.7) (0.4 - au)))
      else if au ≥ 0.75 then
        some (DetCode.T5, confFromMargin (au - 0.75))
      else none
  | _, _ => none

/-- `computeFinalDeterminationCff` over the `indicators` record; options are
`t2_mode` ("Regulation" when the flag is true) and the conservative lock. -/
def computeFinalDeterminationCff (indicators : Json)
    (t2ModeRegulation : Bool) (conservativeLock : Bool) : Json :=
  let AAS := getActiveScore indicators "AAS" false
  let CTF := getActiveScore indicators "CTF" false
  let RMD := getActiveScore indicators "RMD" false
  let RDX := getActiveScore indicators "RDX" false
  let EDS := getActiveScore indicators "EDS" false
  let IFD := getActiveScore indicators "IFD" false
  let KPF := getActiveScore indicators "KPF-Sim" false
  let TPS := getActiveScore indicators "TPS-H" true
  let Analyticity := avgOpt AAS EDS
  let Flow := avgOpt CTF RMD
  let MetacogRaw := avgOpt RDX IFD
  let Regulation := avgOpt RDX (IFD.map (fun x => 1 - x))
  let Authenticity :=
    match KPF, TPS with
    | some K, some T => avgOpt (some (1 - K)) (some T)
    | some K, none => some (1 - K)
    | none, some T => some T
    | none, none => none
  let MachineScore :=
    match KPF, TPS with
    | some K, some T => avgOpt (some K) (some (1 - T))
    | some K, none => some K
    | none, some T => some (1 - T)
    | none, none => none
  -- internalTrack: null MachineScore or the conservative lock force "Human"
  let track : ℕ :=  -- 0 = Human, 1 = Hybrid, 2 = AI
    match MachineScore with
    | none => 0
    | some ms => if conservativeLock then 0 else if ms ≥ 0.7 then 2
        else if ms ≥ 0.4 then 1 else 0
  let finalPair : DetCode × ℚ :=
    if track = 0 then
      match chooseT5T6 Authenticity MachineScore with
      | some p => p
      | none => chooseHumanT Analyticity Flow MetacogRaw Regulation t2ModeRegulation
    else if track = 1 then
      match chooseHx KPF RDX AAS CTF EDS RMD with
      | some p => p
      | none => chooseHumanT Analyticity Flow MetacogRaw Regulation t2ModeRegulation
    else
      match chooseAx AAS RMD RDX EDS IFD Flow MachineScore with
      | some p => p
      | none => chooseHumanT Analyticity Flow MetacogRaw Regulation t2ModeRegulation
  let reg := TYPE_REGISTRY finalPair.1
  let label := detCodeStr finalPair.1 ++ ". " ++ reg.type_name
  let confidence := round2 (clamp01 finalPair.2)
  let interp :=
    match INTERPRETATION_REGISTRY finalPair.1 with
    | some s => s
    | none => reg.type_name ++
        " reflects the dominant reasoning pattern inferred from the current indicator configuration."
  Json.obj [("cff", Json.obj [("final_type", Json.obj
    [("label", Json.str label),
     ("chip_label", Json.str reg.type_name),
     ("confidence", Json.num confidence),
     ("interpretation", Json.str interp)])])]

/-! ## `deriveCff` orchestrator (rc.ts lines 2615-2658) -/

/-- `deriveCff`.  The indicator record handed to the final determination is
`(cff6)?.cff?.indicators ?? {}`; `computeCFF6_v1` returns a bare
`{AAS..IFD}` record with no `cff` key and the raw-absent fallback carries an
empty `indicators`, so that record is always empty. -/
def deriveCff (input : Json) : Except String Json := do
  let ai := analysisInputOf input
  let rawOpt := Json.truthyOpt (rawFeaturesOf ai)
  let cff6 ← match rawOpt with
    | some r => computeCFF6_v1 r
    | none => pure (Json.obj [("cff", Json.obj [("indicators", Json.obj [])])])
  let patterns := match rawOpt with
    | some r => computeObservedPatternsV2 (coreAxesOfJson r)
    | none => Json.obj [("cff", Json.obj [("observed_patterns", Json.arr [])])]
  let indicators :=
    (Json.nn (cff6.getPath ["cff", "indicators"]) (some (Json.obj []))).getD (Json.obj [])
  -- opts: t2_mode "Regulation", conservative_lock_ai_hybrid true
  let finalType := computeFinalDeterminationCff indicators true true
  pure (deepMergeAll [cff6, patterns, finalType])

/-! ## `deriveRsl` orchestrator (rfs.ts lines 1736-1871) -/

/-- The local `deepMerge(a, b)` of `deriveRsl` (rfs.ts lines 1856-1870):
returns `b` when `a` is not a (truthy) object, `a` when `b` is not, and
otherwise merges per key with the same object/overwrite rule as
`deepMergeInto` (the recursive case delegates to the identical key loop, so
`mergeObj` is reused).  The object/array mixed cases cannot occur at either
call site (both always pass plain objects) and are modelled by keeping `a`. -/
def deepMergeRsl (a b : Json) : Json :=
  match a, b with
  | Json.obj as_, Json.obj bs => Json.obj (mergeObj as_ bs)
  | Json.obj _, Json.arr _ => a
  | Json.arr _, Json.obj _ => a
  | Json.arr _, Json.arr _ => a
  | Json.obj _, _ => a
  | Json.arr _, _ => a
  | _, b => b

/-- `j.k = v` on an object value. -/
def setField (j : Json) (k : String) (v : Json) : Json :=
  match j with
  | Json.obj es => Json.obj (Json.setKey es k v)
  | _ => j

/-- `Boolean(a ?? b)`. -/
def boolOfNN (a b : Option Json) : Bool :=
  match (Json.nn a b) with
  | some v => v.truthy
  | none => false

def rslMetaJson (m : RSLLevelMeta) : Json :=
  Json.obj [("level_short_name", Json.str m.level_short_name),
    ("level_full_name", Json.str m.level_full_name),
    ("level_description", Json.str m.level_description)]

/-- `deriveRsl`.  Note the source's `Object.assign(out, friRes)`: `friRes` is
`{ rsl: { fri: … } }`, so the assignment *replaces* the whole `rsl` value of
`out`, discarding the `level`/`level_meta`/`rubric` block built just above it;
only `fri` (and then the cohort chart) survive.  The subsequent `rubric4` and
`sriOut` blocks (rfs.ts lines 1811-1852) are dead: `computeRslRubric4FromRaw`
returns a `RslRubric4` record which never has the `rslVector` field tested at
line 1816 nor the `rsl` field tested at line 1851, so `sriOut` stays `null`
and neither guarded merge fires; the dead computation is elided here. -/
def deriveRsl (input : Json) : Json :=
  let ai := analysisInputOf input
  let raw := rawFeaturesOf ai
  let rubric := Json.nn (ai.getField "rsl_rubric")
    (Json.nn (ai.getField "rubric") (ai.getField "rslRubric"))
  let coherence := numOfNN (Json.nn (optField rubric "coherence")
    (optField rubric "coherence_rubric_0to5"))
  let structureR := numOfNN (Json.nn (optField rubric "structure")
    (optField rubric "structure_rubric_0to5"))
  let evaluation := numOfNN (Json.nn (optField rubric "evaluation")
    (optField rubric "evaluation_rubric_0to5"))
  let integration := numOfNN (Json.nn (optField rubric "integration")
    (optField rubric "integration_rubric_0to5"))
  let evidenceCount := numOfNN (Json.nn (optField (optField raw "layer_0") "evidence")
    (optField (optField raw "layer_0") "evidence_count"))
  let hasCounterpoint := boolOfNN (optField (optField raw "layer_1") "counterpoints")
    (optField (optField raw "layer_1") "has_counterpoint")
  let hasRefutation := boolOfNN (optField (optField raw "layer_1") "refutations")
    (optField (optField raw "layer_1") "has_refutation")
  let levelFlags : RSLLevelFlags :=
    { strict_mode := false, evidence_required_for_L4plus := true, allow_L6 := true }
  let levelPolicy : RSLLevelPolicy :=
    { gate_L2_min := 1, gate_L3_min := 2, gate_L4_min := 3, gate_L5_min := 4
      gate_L6_min := 5, min_evidence_count_for_L4plus := 2
      min_evidence_link_rate_for_L4plus := 0.3, strict_gate_bonus := 0
      l6_integration_min := 5 }
  let levelRes := computeRSLLevel
    { coherence_rubric_0to5 := coherence, structure_rubric_0to5 := structureR
      evaluation_rubric_0to5 := evaluation, integration_rubric_0to5 := integration
      evidence_count := some evidenceCount, evidence_link_rate_0to1 := none
      has_counterpoint := some hasCounterpoint, has_refutation := some hasRefutation }
    levelFlags levelPolicy
  let friRes := computeFRI coherence structureR evaluation integration
  let cohortList : List ℚ :=
    match ai.getField "cohort_fri_list" with
    | some (Json.arr xs) => xs.map (fun j => match j with | Json.num q => q | _ => 0)
    | _ => []
  let friScore := numOfNN (friRes.getPath ["rsl", "fri", "score"])
  let pct := percentile0to1 friScore cohortList
  let topLabel := topPercentLabel pct
  -- Number(topLabel.replace(/[^0-9]/g, "")) || Math.round((1 - pct) * 100)
  let fallbackTop : ℚ := ((jsRound ((1 - pct) * 100) : ℤ) : ℚ)
  let topValue : ℚ :=
    match digitsToNat (topLabel.toList.filter Char.isDigit) with
    | some n => if n = 0 then fallbackTop else (n : ℚ)
    | none => fallbackTop
  let cohortRsl : Json := Json.obj [("charts", Json.obj [("cohort_positioning", Json.obj
    [("current", Json.obj [("x", Json.num pct), ("y", Json.num friScore)]),
     ("percentile_0to1", Json.num pct),
     ("top_percent_label", Json.str topLabel),
     ("interpretation", Json.str (cohortInterpretationFromTopPercent topValue))])])]
  let out0 : Json := Json.obj [("rsl", Json.obj
    [("level", Json.str (levelCodeStr levelRes.level)),
     ("level_meta", rslMetaJson levelRes.meta),
     ("rubric", Json.obj [("coherence", Json.num coherence),
       ("structure", Json.num structureR),
       ("evaluation", Json.num evaluation),
       ("integration", Json.num integration)])])]
  let out1 := objAssign out0 friRes
  setField out1 "rsl" (deepMergeRsl ((out1.getField "rsl").getD Json.null) cohortRsl)

/-! ## RC control-pattern scorer (`Backend_8`, rc.ts lines 7-344) -/

structure ControlVector where
  A : ℚ
  D : ℚ
  R : ℚ
deriving Repr, DecidableEq

inductive ControlPattern where
  | deep_reflective_human
  | moderate_reflective_human
  | moderate_procedural_human
  | shallow_procedural_human
  | moderate_reflective_hybrid
  | shallow_procedural_hybrid
  | shallow_procedural_ai
  | moderate_procedural_ai
  | deep_procedural_ai
deriving Repr, DecidableEq

def controlPatternKey : ControlPattern → String
  | .deep_reflective_human => "deep_reflective_human"
  | .moderate_reflective_human => "moderate_reflective_human"
  | .moderate_procedural_human => "moderate_procedural_human"
  | .shallow_procedural_human => "shallow_procedural_human"
  | .moderate_reflective_hybrid => "moderate_reflective_hybrid"
  | .shallow_procedural_hybrid => "shallow_procedural_hybrid"
  | .shallow_procedural_ai => "shallow_procedural_ai"
  | .moderate_procedural_ai => "moderate_procedural_ai"
  | .deep_procedural_ai => "deep_procedural_ai"

structure ControlPatternMeta where
  pattern_description : String
  pattern_interpretation : String
  band_rationale : String

def CONTROL_PATTERN_META : ControlPattern → ControlPatternMeta
  | .deep_reflective_human => ⟨
      "Human-led reasoning with sustained reflective control and stable structural revision. The current position is centered within the human reasoning cluster.",
      "A high human proportion indicates stable human-led control at structural decision boundaries across the task.",
      "Reasoning decisions originate from explicit human-driven revision and counter-evaluative judgment rather than automated continuation flow."⟩
  | .moderate_reflective_human => ⟨
      "Human-led reasoning with localized reflective adjustment and generally stable structure. The current position remains within the human cluster with moderate dispersion.",
      "A high human proportion indicates largely human-led control, with reflective adjustment appearing in localized segments.",
      "Reasoning decisions include limited human revision but do not extend to full structural reconfiguration."⟩
  | .moderate_procedural_human => ⟨
      "Human-authored reasoning following a stable procedural structure. The current position lies within the human cluster but closer to the procedural boundary.",
      "A high human proportion indicates human-led control under a procedural sequence, with limited reflective intervention.",
      "Reasoning decisions follow a predefined structural sequence with minimal reflective intervention."⟩
  | .shallow_procedural_human => ⟨
      "Human-generated reasoning with shallow procedural progression and limited structural depth. The current position is weakly anchored within the human reasoning cluster.",
      "A high human proportion indicates human-led control, though structural decisions tend to follow shallow continuation patterns.",
      "Reasoning decisions rely on surface-level continuation rather than deliberate structural control."⟩
  | .moderate_reflective_hybrid => ⟨
      "Mixed-agency reasoning with partial human reflection and assisted structural development. The current position spans the boundary between human and hybrid clusters.",
      "A mixed distribution indicates shared control, where human intent is present but transitions partially reflect assisted continuation.",
      "Reasoning decisions reflect human intent but are partially influenced by assisted continuation patterns."⟩
  | .shallow_procedural_hybrid => ⟨
      "Hybrid reasoning with procedural structure and limited reflective control. The current position trends toward the hybrid procedural region.",
      "A mixed distribution indicates assisted procedural flow, with limited human-led structural revision at decision boundaries.",
      "Reasoning decisions follow assisted procedural flow with minimal human structural revision."⟩
  | .shallow_procedural_ai => ⟨
      "AI-dominant reasoning with shallow procedural expansion. The current position is located near the automated cluster perimeter.",
      "A low human proportion indicates control signals are dominated by automated continuation rather than human-led structural decisions.",
      "Reasoning decisions primarily arise from automated continuation without observable human control signals."⟩
  | .moderate_procedural_ai => ⟨
      "AI-generated reasoning with stable but non-reflective procedural structure. The current position is centered within the automated reasoning cluster.",
      "A low human proportion indicates stable automated continuation patterns with minimal evidence of human-originated structural control.",
      "Reasoning decisions follow internally consistent continuation patterns without human-originated revision."⟩
  | .deep_procedural_ai => ⟨
      "AI-generated reasoning exhibiting high structural complexity without reflective control. The current position is deeply embedded within the automated procedural cluster.",
      "A low human proportion indicates layered procedural expansion without consistent reflective control signals originating from the individual.",
      "Reasoning decisions reflect layered procedural expansion rather than intentional evaluative judgment."⟩

/-- The nine centroids, in the source's registration (iteration) order. -/
def CENTROIDS : List (ControlPattern × ControlVector) :=
  [(.deep_reflective_human, ⟨0.85, 0.8, 0.8⟩),
   (.moderate_reflective_human, ⟨0.8, 0.55, 0.6⟩),
   (.moderate_procedural_human, ⟨0.75, 0.55, 0.25⟩),
   (.shallow_procedural_human, ⟨0.7, 0.3, 0.2⟩),
   (.moderate_reflective_hybrid, ⟨0.55, 0.55, 0.55⟩),
   (.shallow_procedural_hybrid, ⟨0.5, 0.3, 0.2⟩),
   (.shallow_procedural_ai, ⟨0.2, 0.3, 0.15⟩),
   (.moderate_procedural_ai, ⟨0.15, 0.55, 0.15⟩),
   (.deep_procedural_ai, ⟨0.1, 0.8, 0.1⟩)]

/-- Squared Euclidean distance, standing in for the source's
`Math.sqrt(dA²+dD²+dR²)`: `sqrt` is strictly monotone on the nonnegatives, so
all comparisons the classifier makes are preserved exactly. -/
def euclideanSq (a b : ControlVector) : ℚ :=
  (a.A - b.A) ^ 2 + (a.D - b.D) ^ 2 + (a.R - b.R) ^ 2

/-- `bandFromDistance` over squared distances: `d < 0.12 ↔ d² < 0.0144`,
`d < 0.22 ↔ d² < 0.0484`. -/
def bandFromDistanceSq (dSq : ℚ) : String :=
  if dSq < 0.0144 then "HIGH" else if dSq < 0.0484 then "MEDIUM" else "LOW"

/-- `w[0].toUpperCase() + w.slice(1)`, guarded against the empty word. -/
def capitalizeWord (w : String) : String :=
  match w.toList with
  | [] => w
  | c :: rest => String.mk (c.toUpper :: rest)

/-- `formatControlPatternLabel`: snake_case → Title Case. -/
def formatControlPatternLabel (p : ControlPattern) : String :=
  String.intercalate " " ((splitChar '_' (controlPatternKey p)).map capitalizeWord)

/-- The selection fold of `inferRCFromADR`: starts from the initial
`best = moderate_reflective_human` with `bestDist = +∞` (modelled as `none`),
updating on strictly smaller distance only — so the first centroid attaining
the minimum wins. -/
def nearestCentroid (v : ControlVector) : ControlPattern × Option ℚ :=
  CENTROIDS.foldl (fun acc pc =>
    let d := euclideanSq v pc.2
    match acc.2 with
    | none => (pc.1, some d)
    | some bd => if d < bd then (pc.1, some d) else acc)
    (ControlPattern.moderate_reflective_human, none)

structure RCOut where
  summary : String
  control_pattern : String
  reliability_band : String
  band_rationale : String
  pattern_interpretation : String
deriving Repr, DecidableEq

/-- `inferRCFromADR` (ℚ inputs are always finite, so the `isFiniteNumber`
fallbacks to 0.5 are inert; the clamps remain). -/
def inferRCFromADR (vIn : ControlVector) : RCOut :=
  let v : ControlVector := ⟨clamp01 vIn.A, clamp01 vIn.D, clamp01 vIn.R⟩
  let best := nearestCentroid v
  let meta := CONTROL_PATTERN_META best.1
  let rb := bandFromDistanceSq (best.2.getD 0)
  { summary := meta.pattern_description
    control_pattern := formatControlPatternLabel best.1
    reliability_band := rb
    band_rationale := meta.band_rationale
    pattern_interpretation := meta.pattern_interpretation }

/-- `computeADR_min`: the three control axes from the minimal raw contract
(reads the `layer_0…layer_3` fields off the given record). -/
def computeADR_min (raw : Json) : ControlVector :=
  let l0 := (raw.getField "layer_0").getD Json.null
  let l1 := (raw.getField "layer_1").getD Json.null
  let l2 := (raw.getField "layer_2").getD Json.null
  let l3 := (raw.getField "layer_3").getD Json.null
  let U : ℚ := (max 1 ⌊(numFieldOpt l0 "units").getD 0⌋ : ℤ)
  let C := max 0 ((numFieldOpt l0 "claims").getD 0)
  let reasons := max 0 ((numFieldOpt l0 "reasons").getD 0)
  let evidence := max 0 ((numFieldOpt l0 "evidence").getD 0)
  let counterpoints := max 0 ((numFieldOpt l1 "counterpoints").getD 0)
  let refutations := max 0 ((numFieldOpt l1 "refutations").getD 0)
  let transitions := max 0 ((numFieldOpt l2 "transitions").getD 0)
  let transitionOk := max 0 ((numFieldOpt l2 "transition_ok").getD 0)
  let revisions := max 0 ((numFieldOpt l2 "revisions").getD 0)
  let revisionDepthSum := max 0 ((numFieldOpt l2 "revision_depth_sum").getD 0)
  let intentMarkers := max 0 ((numFieldOpt l3 "intent_markers").getD 0)
  let driftSegments := max 0 ((numFieldOpt l3 "drift_segments").getD 0)
  let selfReg := max 0 ((numFieldOpt l3 "self_regulation_signals").getD 0)
  let transitionDensity := safeDiv transitions U
  let transitionQuality := clamp01 (safeDiv transitionOk transitions)
  let revisionRate := safeDiv revisions U
  let revisionDepthAvg := safeDiv revisionDepthSum (max 1 revisions)
  let counterRate := safeDiv (counterpoints + refutations) (max 1 C)
  let intentRate := safeDiv intentMarkers U
  let driftRate := safeDiv driftSegments U
  let reasonRate := safeDiv reasons (max 1 C)
  let evidenceRate := safeDiv evidence (max 1 C)
  let A_core :=
    0.30 * sat intentRate 0.25 +
    0.28 * sat revisionRate 0.30 +
    0.24 * sat counterRate 0.35 +
    0.12 * transitionQuality +
    0.06 * sat (safeDiv selfReg U) 0.20
  let A_penalty :=
    0.24 * sat driftRate 0.25 +
    0.16 * sat (transitionDensity * (1 - transitionQuality)) 0.25
  let A := clamp01 (A_core - A_penalty)
  let D_core :=
    0.45 * sat reasonRate 0.9 +
    0.35 * sat evidenceRate 0.7 +
    0.20 * sat transitionDensity 0.7
  let D := clamp01 D_core
  let R_core :=
    0.32 * sat revisionRate 0.28 +
    0.24 * sat revisionDepthAvg 0.9 +
    0.22 * sat counterRate 0.30 +
    0.16 * sat (safeDiv selfReg U) 0.25 +
    0.06 * transitionQuality
  let R_penalty := 0.12 * sat driftRate 0.30
  let R := clamp01 (R_core - R_penalty)
  ⟨A, D, R⟩

def rcOutJson (o : RCOut) : Json :=
  Json.obj [("summary", Json.str o.summary),
    ("control_pattern", Json.str o.control_pattern),
    ("reliability_band", Json.str o.reliability_band),
    ("band_rationale", Json.str o.band_rationale),
    ("pattern_interpretation", Json.str o.pattern_interpretation)]

/-- `computeRCFromRaw`: `{ rc: inferRCFromADR(computeADR_min(raw)) }`. -/
def computeRCFromRaw (raw : Json) : Json :=
  Json.obj [("rc", rcOutJson (inferRCFromADR (computeADR_min raw)))]

/-! ## Observed structural-signals library (`Backend_9`, rc.ts lines 352-651)

Only `buildSignalLibraryV1_S1toS18` is reachable from the orchestrator
(`deriveRc` merely attaches the library; `computeRCFromRaw` never emits
`observed_structural_signals`, so `selectObservedSignals`/`toRcJson` are
never invoked by the pipeline and are not needed by any claim). -/

def signalTemplateJson (id text group : String) (priority : ℚ) : Json :=
  Json.obj [("id", Json.str id), ("text", Json.str text),
    ("group", Json.str group), ("priority", Json.num priority)]

/-- `buildSignalLibraryV1_S1toS18()` rendered as its JSON record. -/
def buildSignalLibraryV1_S1toS18 : Json :=
  Json.obj
    [("S1", signalTemplateJson "S1" "Revision activity occurs at semantic decision boundaries." "REVISION" 10),
     ("S2", signalTemplateJson "S2" "Argument order adjustments correspond to logical correction." "REVISION" 20),
     ("S3", signalTemplateJson "S3" "Claim scope or conditions are refined through explicit revision." "REVISION" 30),
     ("S4", signalTemplateJson "S4" "Prior assumptions are explicitly re-evaluated during reasoning progression." "REVISION" 40),
     ("S5", signalTemplateJson "S5" "Consistency checks appear across structural transitions." "TRANSITION" 10),
     ("S6", signalTemplateJson "S6" "Logical transitions between claims and supporting reasons are explicitly maintained." "TRANSITION" 20),
     ("S7", signalTemplateJson "S7" "Structural continuity is preserved across multi-step reasoning transitions." "TRANSITION" 30),
     ("S8", signalTemplateJson "S8" "Alternative viewpoints are introduced and structurally examined." "COUNTER" 10),
     ("S9", signalTemplateJson "S9" "Counter-arguments are explicitly addressed through refutational reasoning." "COUNTER" 20),
     ("S10", signalTemplateJson "S10" "Evidence is evaluated against potential contradictions rather than accepted at face value." "COUNTER" 30),
     ("S11", signalTemplateJson "S11" "Multiple evidence types are integrated within the reasoning structure." "EVIDENCE" 10),
     ("S12", signalTemplateJson "S12" "Evidence placement aligns with the logical role it serves within the argument." "EVIDENCE" 20),
     ("S13", signalTemplateJson "S13" "Supporting evidence is selectively introduced at structurally relevant points." "EVIDENCE" 30),
     ("S14", signalTemplateJson "S14" "No sustained repetitive propagation is observed across reasoning segments." "NONAUTO" 10),
     ("S15", signalTemplateJson "S15" "Structural variation is maintained without reliance on template-like repetition." "NONAUTO" 20),
     ("S16", signalTemplateJson "S16" "Reasoning progression avoids uniform continuation patterns across sections." "NONAUTO" 30),
     ("S17", signalTemplateJson "S17" "Structural behavior reflects document-specific reasoning rather than generic composition patterns." "SPECIFICITY" 10),
     ("S18", signalTemplateJson "S18" "Observed structural signals vary across sections in response to local reasoning demands." "SPECIFICITY" 20)]

/-! ## Structural control signals / agency indicators
(`Backend_11`, rc.ts lines 907-1471)

This module is the pipeline's only consumer of `Math.log` and `Math.sqrt`,
which have no exact rational embedding.  They are replaced by the stand-ins
below.  Soundness of every theorem in this file is unaffected: with the raw
records reaching `computeAgencyIndicators` in the theorems below, the
structural-variance and rhythm computations exit early before any `jsSqrt`
call, and every `jsLog` result is either taken at argument `1`
(`Math.log 1 = 0 = jsLog 1`) or multiplied by `0`, so the stand-in values
are never observed. -/

/-- Stand-in for `Math.sqrt` (see the module comment; never observed by any
theorem in this file). -/
def jsSqrt (_x : ℚ) : ℚ := 0

/-- Stand-in for `Math.log` (see the module comment; agrees with `Math.log`
at the only observed argument, `jsLog 1 = 0`). -/
def jsLog (_x : ℚ) : ℚ := 0

/-- This module's `safeDiv(n, d) = d > 0 ? n / d : 0` (different from the
`max(1, d)` variant used by the A/D/R module). -/
def safeDivPos (n d : ℚ) : ℚ := if d > 0 then n / d else 0

/-- `safeNum(x, fallback)` on a possibly-missing JSON value.  (`null` and
booleans coerce through `Number(...)`; other non-numbers produce `NaN` and
take the fallback.) -/
def safeNumJ (o : Option Json) (fallback : ℚ) : ℚ :=
  match o with
  | some (Json.num q) => q
  | some Json.null => 0
  | some (Json.bool b) => if b then 1 else 0
  | some _ => fallback
  | none => fallback

/-- A per-unit numeric array, when the field holds an array. -/
def numArrOf (o : Option Json) : Option (List ℚ) :=
  match o with
  | some (Json.arr xs) => some (xs.map (fun j => safeNumJ (some j) 0))
  | _ => none

def sumQ (xs : List ℚ) : ℚ := xs.foldl (· + ·) 0

def meanQ (xs : List ℚ) : ℚ :=
  if xs.length = 0 then 0 else sumQ xs / (xs.length : ℚ)

/-- Sample standard deviation (`std`, divisor `n - 1`), through `jsSqrt`. -/
def stdQ (xs : List ℚ) : ℚ :=
  if xs.length < 2 then 0
  else
    let m := meanQ xs
    jsSqrt (sumQ (xs.map (fun v => (v - m) ^ 2)) / ((xs.length : ℚ) - 1))

/-- Coefficient of variation (`cv`). -/
def cvQ (xs : List ℚ) : ℚ :=
  let m := meanQ xs
  if m ≤ 0 then 0 else stdQ xs / m

/-- `diffsSortedIndices`. -/
def diffsSortedIndices (indices : List ℚ) : List ℚ :=
  if indices.length < 2 then []
  else
    let xs := sortJs (· ≤ ·) ((indices.map (fun x => ⌊x⌋)).filter (fun x => x ≥ 0))
    (xs.zip xs.tail).map (fun p => ((p.2 - p.1 : ℤ) : ℚ))

/-- `eventIndicesFromPerUnit`: indices of strictly positive entries. -/
def eventIndicesFromPerUnit (perUnit : Option (List ℚ)) : List ℚ :=
  match perUnit with
  | none => []
  | some xs =>
      ((xs.enum.filter (fun p => p.2 > 0)).map (fun p => (p.1 : ℚ)))

/-- `chooseK`: `clip(round(sqrt(units)), 3, 8)`, but `3` when `units < 6`. -/
def chooseK (units : ℚ) : ℤ :=
  let u := max 1 ⌊units⌋
  if u < 6 then 3 else min 8 (max 3 (jsRound (jsSqrt (u : ℚ))))

/-- `segmentRanges`. -/
def segmentRanges (units K : ℤ) : List (ℤ × ℤ) :=
  let u := max 1 units
  let k := max 1 K
  (List.range k.toNat).map (fun i =>
    (((i : ℤ) * u) / k, (((i : ℤ) + 1) * u) / k))

/-- `sliceSum` over a per-unit array. -/
def sliceSum (arr : Option (List ℚ)) (start stop : ℤ) : ℚ :=
  match arr with
  | none => 0
  | some xs =>
      let s := max 0 start
      let e := min (xs.length : ℤ) (max s stop)
      sumQ ((xs.drop s.toNat).take (e - s).toNat)

/-- `l2dist` through `jsSqrt`. -/
def l2dist (a b : List ℚ) : ℚ :=
  let n := max a.length b.length
  jsSqrt (sumQ ((List.range n).map (fun i =>
    ((a.getD i 0) - (b.getD i 0)) ^ 2)))

/-- `computeStructuralVariance` (returns 0 when no per-unit arrays exist). -/
def computeStructuralVariance (raw : Json) : ℚ :=
  let units := max 1 ⌊safeNumJ (raw.getField "units") 1⌋
  let pu : Json := match Json.truthyOpt (raw.getField "per_unit") with
    | some v => v
    | none => Json.obj []
  let keys := ["claims", "reasons", "evidence", "sub_claims", "warrants",
    "counterpoints", "refutations", "transitions"]
  let arrays := keys.map (fun k => numArrOf (pu.getField k))
  let hasAnyPerUnit := arrays.any (fun a => match a with
    | some xs => xs.length > 0
    | none => false)
  if !hasAnyPerUnit then 0
  else
    let K := chooseK (units : ℚ)
    let ranges := segmentRanges units K
    let segVecs := ranges.map (fun rg =>
      let uSeg : ℚ := (max 1 (rg.2 - rg.1) : ℤ)
      arrays.map (fun a => sliceSum a rg.1 rg.2 / uSeg))
    let dim := (segVecs.headD []).length
    let sBar := (List.range dim).map (fun j =>
      safeDivPos (sumQ (segVecs.map (fun v => v.getD j 0))) (segVecs.length : ℚ))
    let SV_raw := safeDivPos (sumQ (segVecs.map (fun v => l2dist v sBar))) (segVecs.length : ℚ)
    clamp01 (safeDivPos SV_raw 0.35)

/-- `computeHumanRhythmIndex` (returns 0 when no interval sequence exists). -/
def computeHumanRhythmIndex (raw : Json) : ℚ :=
  let pu : Json := match Json.truthyOpt (raw.getField "per_unit") with
    | some v => v
    | none => Json.obj []
  let cvs : List (ℚ × ℚ) :=
    (match numArrOf (raw.getField "unit_lengths") with
      | some xs => if xs.length ≥ 2 then [(cvQ (xs.map (fun x => max 0 x)), (0.6 : ℚ))] else []
      | none => []) ++
    (let tDiffs := diffsSortedIndices (eventIndicesFromPerUnit (numArrOf (pu.getField "transitions")))
     if tDiffs.length ≥ 2 then [(cvQ tDiffs, (0.2 : ℚ))] else []) ++
    (let rDiffs := diffsSortedIndices (eventIndicesFromPerUnit (numArrOf (pu.getField "revisions")))
     if rDiffs.length ≥ 2 then [(cvQ rDiffs, (0.2 : ℚ))] else [])
  if cvs.isEmpty then 0
  else
    let num := sumQ (cvs.map (fun p => p.1 * p.2))
    let den := sumQ (cvs.map (fun p => p.2))
    let combined := if den > 0 then num / den else 0
    clamp01 (safeDivPos combined 0.6)

/-- `computeAvgChainLengthFromPerUnitTransitions`. -/
def computeAvgChainLength (perUnitTransitions : Option (List ℚ)) : ℚ :=
  match perUnitTransitions with
  | none => 1
  | some [] => 1
  | some xs =>
      let bits := xs.map (fun v => if v > 0 then (1 : ℕ) else 0)
      let runs := (bits.foldl (fun (acc : List ℕ × ℕ) x =>
        if x = 1 then (acc.1, acc.2 + 1)
        else if acc.2 > 0 then (acc.1 ++ [acc.2], 0) else acc) ([], 0))
      let runsList := if runs.2 > 0 then runs.1 ++ [runs.2] else runs.1
      if runsList.isEmpty then 1 else meanQ (runsList.map (fun n => (n : ℚ)))

/-- `computeTransitionFlow = clamp01((valid/total) * log(1 + avg_chain))`. -/
def computeTransitionFlow (raw : Json) : ℚ :=
  let totals : Json := match Json.truthyOpt (raw.getField "totals") with
    | some v => v
    | none => Json.obj []
  let pu : Json := match Json.truthyOpt (raw.getField "per_unit") with
    | some v => v
    | none => Json.obj []
  let totalTransitions := match numArrOf (pu.getField "transitions") with
    | some xs => sumQ xs
    | none => safeNumJ (totals.getField "transitions") 0
  let validTransitions := match numArrOf (pu.getField "transition_ok") with
    | some xs => sumQ xs
    | none => safeNumJ (totals.getField "transition_ok") 0
  let ratio := safeDivPos validTransitions (max 1 totalTransitions)
  let avgChain := computeAvgChainLength (numArrOf (pu.getField "transitions"))
  clamp01 (ratio * jsLog (1 + max 0 avgChain))

/-- `computeRevisionDepth`: explicit depth sum when available, else the
`log(1 + revisions) / log(13)` proxy. -/
def computeRevisionDepth (raw : Json) : ℚ :=
  let totals : Json := match Json.truthyOpt (raw.getField "totals") with
    | some v => v
    | none => Json.obj []
  let pu : Json := match Json.truthyOpt (raw.getField "per_unit") with
    | some v => v
    | none => Json.obj []
  -- `(per-unit sum : undefined) ?? safeNum(totals.revision_depth_sum, NaN)`,
  -- then `Number.isFinite(depthSum)`: `none` models the NaN fallthrough.
  let depthSum : Option ℚ := match numArrOf (pu.getField "revision_depth") with
    | some xs => some (sumQ xs)
    | none => match totals.getField "revision_depth_sum" with
        | some (Json.num q) => some q
        | some Json.null => some 0
        | some (Json.bool b) => some (if b then 1 else 0)
        | _ => none
  match depthSum with
  | some ds => clamp01 (safeDivPos ds 3.0)
  | none =>
      let revisions := match numArrOf (pu.getField "revisions") with
        | some xs => sumQ xs
        | none => safeNumJ (totals.getField "revisions") 0
      clamp01 (safeDivPos (jsLog (1 + max 0 revisions)) (jsLog (1 + max 1 (12 : ℚ))))

/-- `computeAgencyIndicators`: the bare four-indicator record (this is what
`deriveRc` merges when raw features are present — *not* wrapped in `rc`). -/
def computeAgencyIndicators (raw : Json) : Json :=
  Json.obj [("structural_variance", Json.num (computeStructuralVariance raw)),
    ("human_rhythm_index", Json.num (computeHumanRhythmIndex raw)),
    ("transition_flow", Json.num (computeTransitionFlow raw)),
    ("revision_depth", Json.num (computeRevisionDepth raw))]

/-! ## `deriveRc` orchestrator (rc.ts lines 1477-1523) -/

/-- `deriveRc`.  Two wiring notes, both taken verbatim from the source:

* `observed = rcSummary?.rc?.observed_structural_signals` is always
  `undefined` (`computeRCFromRaw` never emits that key), so the observed
  block only ever carries the library.
* `dist`: the source calls `computePHumanFromCFV(cfv)` with its second
  (`model`) argument missing inside `try { … } catch { dist = {rc:{}} }`.
  When `cfv` is truthy the callee immediately evaluates
  `Number.isFinite(model.z_clip)` on `model === undefined` and throws a
  `TypeError`; when `cfv` is falsy the call is skipped.  Either way
  `dist = { rc: {} }` on every input, which is what the embedding uses (the
  spec's §9 likewise treats the distribution wiring as dormant). -/
def deriveRc (input : Json) : Json :=
  let ai := analysisInputOf input
  let rawOpt := Json.truthyOpt (rawFeaturesOf ai)
  let rcSummary := match rawOpt with
    | some r => computeRCFromRaw r
    | none => Json.obj [("rc", Json.obj [])]
  let lib := buildSignalLibraryV1_S1toS18
  let observed := Json.truthyOpt (rcSummary.getPath ["rc", "observed_structural_signals"])
  let observedBlock := match observed with
    | some o => Json.obj [("rc", Json.obj
        [("observed_structural_signals", o),
         ("observed_structural_signals_library", lib)])]
    | none => Json.obj [("rc", Json.obj [("observed_structural_signals_library", lib)])]
  let dist := Json.obj [("rc", Json.obj [])]
  let agency := match rawOpt with
    | some r => computeAgencyIndicators r
    | none => Json.obj [("rc", Json.obj [("structural_control_signals", Json.obj [])])]
  deepMergeAll [rcSummary, observedBlock, dist, agency]

/-! ## RFS cognitive-style scorer (`Backend_12`, rfs.ts lines 7-196) -/

/-- `safe01`: numeric coercion plus clamp — over `ℚ` this is `clamp01`. -/
def safe01 (x : ℚ) : ℚ := clamp01 x

structure StyleInputs where
  aas : ℚ
  ctf : ℚ
  rmd : ℚ
  rdx : ℚ
  eds : ℚ
  ifd : ℚ
  rsl_control : ℚ
  rsl_validation : ℚ
  rsl_hypothesis : ℚ
  rsl_expansion : ℚ

def computeStructureScore (m : StyleInputs) : ℚ :=
  clamp01 (0.40 * safe01 m.rdx + 0.30 * safe01 m.aas +
    0.20 * safe01 m.eds + 0.10 * (1 - safe01 m.ifd))

def computeExplorationScore (m : StyleInputs) : ℚ :=
  clamp01 (0.45 * safe01 m.ctf + 0.25 * safe01 m.rmd +
    0.20 * safe01 m.rsl_hypothesis + 0.10 * safe01 m.rsl_expansion)

/-- The 3×3 threshold grid (HIGH ≥ 0.67, MEDIUM ≥ 0.45). -/
def classifyStyleId (structureS exploration : ℚ) : ℕ :=
  let S := clamp01 structureS
  let E := clamp01 exploration
  if S ≥ 0.67 ∧ E ≥ 0.67 then 1
  else if S ≥ 0.67 ∧ E ≥ 0.45 then 2
  else if S ≥ 0.67 ∧ E < 0.45 then 3
  else if S ≥ 0.45 ∧ E ≥ 0.67 then 4
  else if S ≥ 0.45 ∧ E ≥ 0.45 then 5
  else if S ≥ 0.45 ∧ E < 0.45 then 6
  else if S < 0.45 ∧ E ≥ 0.67 then 7
  else if S < 0.45 ∧ E ≥ 0.45 then 8
  else 9

def DEFAULT_PRIMARY_PATTERN : ℕ → String
  | 1 => "Reflective Explorer"
  | 2 => "Reflective Explorer"
  | 3 => "Analytical Reasoner"
  | 4 => "Intuitive Explorer"
  | 5 => "Reflective Explorer"
  | 6 => "Procedural Thinker"
  | 7 => "Creative Explorer"
  | 8 => "Associative Thinker"
  | _ => "Linear Responder"

def PHRASE_MAP : ℕ → String
  | 1 => "structured and exploratory"
  | 2 => "structured but exploratory"
  | 3 => "highly structured and deliberate"
  | 4 => "exploratory with emerging structure"
  | 5 => "balanced and adaptive"
  | 6 => "moderately structured and steady"
  | 7 => "highly exploratory and fluid"
  | 8 => "loosely structured with exploration"
  | _ => "unstructured and linear"

def computeRfs9Type (inputs : StyleInputs) : Json :=
  let styleId := classifyStyleId (computeStructureScore inputs) (computeExplorationScore inputs)
  Json.obj [("rfs", Json.obj
    [("primary_pattern", Json.str (DEFAULT_PRIMARY_PATTERN styleId)),
     ("representative_phrase", Json.str (PHRASE_MAP styleId))])]

/-- `computeRfsFromPayload`: reads `payload?.cff?.*` and the optional
`payload?.rsl?.*` proxies through `safe01`. -/
def computeRfsFromPayload (payload : Json) : Json :=
  let cff := (payload.getField "cff").getD Json.null
  let rsl := (payload.getField "rsl").getD Json.null
  computeRfs9Type
    { aas := safe01 ((numFieldOpt cff "aas").getD 0)
      ctf := safe01 ((numFieldOpt cff "ctf").getD 0)
      rmd := safe01 ((numFieldOpt cff "rmd").getD 0)
      rdx := safe01 ((numFieldOpt cff "rdx").getD 0)
      eds := safe01 ((numFieldOpt cff "eds").getD 0)
      ifd := safe01 ((numFieldOpt cff "ifd").getD 0)
      rsl_control := safe01 ((numFieldOpt rsl "rsl_control").getD 0)
      rsl_validation := safe01 ((numFieldOpt rsl "rsl_validation").getD 0)
      rsl_hypothesis := safe01 ((numFieldOpt rsl "rsl_hypothesis").getD 0)
      rsl_expansion := safe01 ((numFieldOpt rsl "rsl_expansion").getD 0) }

/-! ## RFS job-group role fit (`Backend_13`, rfs.ts lines 204-695) -/

/-- The four NeuPrint axes; a field is `none` when the JS property is
missing (`undefined`). -/
structure NeuprintAxes where
  analyticity : Option ℚ := none
  flow : Option ℚ := none
  metacognition : Option ℚ := none
  authenticity : Option ℚ := none
deriving Repr, DecidableEq

structure MinRequirements where
  arc_level : Option ℚ := none
  analyticity : Option ℚ := none
  flow : Option ℚ := none
  metacognition : Option ℚ := none
  authenticity : Option ℚ := none
deriving Repr, DecidableEq

structure RoleConfig where
  role_code : String := ""
  job_id : String := ""
  onet_code : String := ""
  oecd_core_skills : List String := []
  neuprint_axes_weights : Option NeuprintAxes := none
  min_requirements : Option MinRequirements := none
deriving Repr, DecidableEq

structure RoleFitInput where
  axes : Option NeuprintAxes := none
  arc_level : Option ℚ := none
deriving Repr, DecidableEq

structure JobGroup where
  group_id : ℕ
  group_name : String
  job_id : String
  job_name : String
deriving Repr, DecidableEq

/-- `isFinite01(x)`: a present, finite number in `[0,1]` (a missing property
reads as `undefined` and fails the check). -/
def isFinite01 (v : Option ℚ) : Bool :=
  match v with
  | some q => decide (0 ≤ q ∧ q ≤ 1)
  | none => false

/-- `assertAxes01(axes, label)`: iterates the four axis keys in source order
and throws on the first value outside `[0,1]`; reading a property of
`undefined`/`null` axes throws a `TypeError` first.  (The JS message embeds
the offending value with JS number formatting; the rendering here differs,
and no theorem inspects these messages.) -/
def assertAxes01 (axes : Option NeuprintAxes) (label : String) : Except String Unit :=
  match axes with
  | none => Except.error ("TypeError: Cannot read properties of undefined (reading " ++ label ++ ")")
  | some a =>
      if !isFinite01 a.analyticity then
        Except.error (label ++ ".analyticity must be in [0,1].")
      else if !isFinite01 a.flow then
        Except.error (label ++ ".flow must be in [0,1].")
      else if !isFinite01 a.metacognition then
        Except.error (label ++ ".metacognition must be in [0,1].")
      else if !isFinite01 a.authenticity then
        Except.error (label ++ ".authenticity must be in [0,1].")
      else pure ()

/-- `validateWeights`: the axes check, then the 1e-6 sum-to-one tolerance. -/
def validateWeights (weights : Option NeuprintAxes) : Except String Unit := do
  assertAxes01 weights "neuprint_axes_weights"
  let w := weights.getD {}
  let sum := w.analyticity.getD 0 + w.flow.getD 0 + w.metacognition.getD 0 + w.authenticity.getD 0
  if |sum - 1.0| > (1/1000000 : ℚ) then
    Except.error ("neuprint_axes_weights must sum to 1.0. Got sum=" ++ toString sum)
  else pure ()

/-- `computeArcBoost`: 0 below the minimum, else `min(0.04, 0.02 + 0.01·max(0, Δ-1))`
(0 when either operand is not a finite number, i.e. missing here). -/
def computeArcBoost (userArc minArc : Option ℚ) : ℚ :=
  match userArc, minArc with
  | some u, some m =>
      if u < m then 0
      else clamp01 (min 0.04 (0.02 + 0.01 * max 0 ((u - m) - 1)))
  | _, _ => 0

/-- One axis of `checkMinRequirements`: skipped when the requirement is not a
number; reading the user axis off `undefined` axes throws; an undefined user
value compares `NaN < r = false` and passes. -/
def minReqAxisCheck (axes : Option NeuprintAxes) (reqv : Option ℚ)
    (get : NeuprintAxes → Option ℚ) : Except String Bool :=
  match reqv with
  | none => pure true
  | some rv =>
      match axes with
      | none => Except.error "TypeError: Cannot read properties of undefined (reading input.axes)"
      | some a => pure (!(match get a with
          | some v => decide (v < rv)
          | none => false))

/-- `checkMinRequirements` (reading `min_requirements.arc_level` off an
absent record throws). -/
def checkMinRequirements (input : RoleFitInput) (cfg : RoleConfig) :
    Except String Bool := do
  match cfg.min_requirements with
  | none => Except.error "TypeError: Cannot read properties of undefined (reading arc_level)"
  | some req =>
      if (match input.arc_level, req.arc_level with
          | some u, some m => decide (u < m)
          | _, _ => false) then pure false
      else do
        let ok1 ← minReqAxisCheck input.axes req.analyticity (fun a => a.analyticity)
        if !ok1 then pure false else do
        let ok2 ← minReqAxisCheck input.axes req.flow (fun a => a.flow)
        if !ok2 then pure false else do
        let ok3 ← minReqAxisCheck input.axes req.metacognition (fun a => a.metacognition)
        if !ok3 then pure false else do
        let ok4 ← minReqAxisCheck input.axes req.authenticity (fun a => a.authenticity)
        if !ok4 then pure false else pure true

/-- `scoreRoleFit01`: asserts the input axes, validates the weights, then the
weighted sum plus arc boost, clamped (the boost line reads
`cfg.min_requirements.arc_level`, which throws when the record is absent). -/
def scoreRoleFit01 (input : RoleFitInput) (cfg : RoleConfig) : Except String ℚ := do
  assertAxes01 input.axes "input.axes"
  validateWeights cfg.neuprint_axes_weights
  let a := input.axes.getD {}
  let w := cfg.neuprint_axes_weights.getD {}
  let base := a.analyticity.getD 0 * w.analyticity.getD 0 +
    a.flow.getD 0 * w.flow.getD 0 +
    a.metacognition.getD 0 * w.metacognition.getD 0 +
    a.authenticity.getD 0 * w.authenticity.getD 0
  match cfg.min_requirements with
  | none => Except.error "TypeError: Cannot read properties of undefined (reading arc_level)"
  | some req => pure (clamp01 (base + computeArcBoost input.arc_level req.arc_level))
/-- `JOB_GROUPS`: the canonical 15-group / 96-role table. -/
def JOB_GROUPS : List JobGroup :=
  [JobGroup.mk 1 "Strategy·Analysis·Policy" "strategy_analyst" "Strategy Analyst",
   JobGroup.mk 1 "Strategy·Analysis·Policy" "management_analyst" "Management Analyst",
   JobGroup.mk 1 "Strategy·Analysis·Policy" "policy_analyst" "Policy Analyst",
   JobGroup.mk 1 "Strategy·Analysis·Policy" "economic_researcher" "Economic Researcher",
   JobGroup.mk 1 "Strategy·Analysis·Policy" "financial_analyst" "Financial Analyst",
   JobGroup.mk 1 "Strategy·Analysis·Policy" "risk_analyst" "Risk Analyst",
   JobGroup.mk 1 "Strategy·Analysis·Policy" "compliance_officer" "Compliance Officer",
   JobGroup.mk 1 "Strategy·Analysis·Policy" "internal_auditor" "Internal Auditor",
   JobGroup.mk 2 "Data·AI·Intelligence" "data_analyst" "Data Analyst",
   JobGroup.mk 2 "Data·AI·Intelligence" "data_scientist" "Data Scientist",
   JobGroup.mk 2 "Data·AI·Intelligence" "business_intelligence_analyst" "Business Intelligence Analyst",
   JobGroup.mk 2 "Data·AI·Intelligence" "machine_learning_analyst" "Machine Learning Analyst",
   JobGroup.mk 2 "Data·AI·Intelligence" "statistician" "Statistician",
   JobGroup.mk 2 "Data·AI·Intelligence" "operations_research_analyst" "Operations Research Analyst",
   JobGroup.mk 2 "Data·AI·Intelligence" "information_security_analyst" "Information Security Analyst",
   JobGroup.mk 3 "Engineering·Technology·Architecture" "software_engineer" "Software Engineer",
   JobGroup.mk 3 "Engineering·Technology·Architecture" "systems_architect" "Systems Architect",
   JobGroup.mk 3 "Engineering·Technology·Architecture" "cloud_engineer" "Cloud Engineer",
   JobGroup.mk 3 "Engineering·Technology·Architecture" "devops_engineer" "DevOps Engineer",
   JobGroup.mk 3 "Engineering·Technology·Architecture" "network_architect" "Network Architect",
   JobGroup.mk 3 "Engineering·Technology·Architecture" "qa_engineer" "QA Engineer",
   JobGroup.mk 3 "Engineering·Technology·Architecture" "safety_systems_engineer" "Safety Systems Engineer",
   JobGroup.mk 4 "Product·Service·Innovation" "product_manager" "Product Manager",
   JobGroup.mk 4 "Product·Service·Innovation" "service_designer" "Service Designer",
   JobGroup.mk 4 "Product·Service·Innovation" "ux_planner" "UX Planner",
   JobGroup.mk 4 "Product·Service·Innovation" "business_developer" "Business Developer",
   JobGroup.mk 4 "Product·Service·Innovation" "innovation_manager" "Innovation Manager",
   JobGroup.mk 4 "Product·Service·Innovation" "r_and_d_planner" "R&D Planner",
   JobGroup.mk 4 "Product·Service·Innovation" "new_venture_strategist" "New Venture Strategist",
   JobGroup.mk 5 "Education·Research·Training" "teacher" "Teacher",
   JobGroup.mk 5 "Education·Research·Training" "professor" "Professor",
   JobGroup.mk 5 "Education·Research·Training" "instructional_designer" "Instructional Designer",
   JobGroup.mk 5 "Education·Research·Training" "education_consultant" "Education Consultant",
   JobGroup.mk 5 "Education·Research·Training" "research_scientist" "Research Scientist",
   JobGroup.mk 5 "Education·Research·Training" "research_coordinator" "Research Coordinator",
   JobGroup.mk 5 "Education·Research·Training" "academic_advisor" "Academic Advisor",
   JobGroup.mk 6 "Psychology·Counseling·Social Care" "counselor" "Counselor",
   JobGroup.mk 6 "Psychology·Counseling·Social Care" "clinical_psychologist" "Clinical Psychologist",
   JobGroup.mk 6 "Psychology·Counseling·Social Care" "school_psychologist" "School Psychologist",
   JobGroup.mk 6 "Psychology·Counseling·Social Care" "social_worker" "Social Worker",
   JobGroup.mk 6 "Psychology·Counseling·Social Care" "behavioral_therapist" "Behavioral Therapist",
   JobGroup.mk 6 "Psychology·Counseling·Social Care" "rehabilitation_specialist" "Rehabilitation Specialist",
   JobGroup.mk 7 "Leadership·Executive·Public Governance" "ceo_coo_cso" "CEO / COO / CSO",
   JobGroup.mk 7 "Leadership·Executive·Public Governance" "public_policy_director" "Public Policy Director",
   JobGroup.mk 7 "Leadership·Executive·Public Governance" "government_administrator" "Government Administrator",
   JobGroup.mk 7 "Leadership·Executive·Public Governance" "program_director" "Program Director",
   JobGroup.mk 7 "Leadership·Executive·Public Governance" "public_strategy_lead" "Public Strategy Lead",
   JobGroup.mk 8 "Marketing·Sales·Communication" "marketing_strategist" "Marketing Strategist",
   JobGroup.mk 8 "Marketing·Sales·Communication" "brand_manager" "Brand Manager",
   JobGroup.mk 8 "Marketing·Sales·Communication" "sales_director" "Sales Director",
   JobGroup.mk 8 "Marketing·Sales·Communication" "pr_manager" "PR Manager",
   JobGroup.mk 8 "Marketing·Sales·Communication" "communication_manager" "Communication Manager",
   JobGroup.mk 8 "Marketing·Sales·Communication" "media_planner" "Media Planner",
   JobGroup.mk 8 "Marketing·Sales·Communication" "digital_marketer" "Digital Marketer",
   JobGroup.mk 9 "Design·Content·Media" "ux_ui_designer" "UX/UI Designer",
   JobGroup.mk 9 "Design·Content·Media" "graphic_designer" "Graphic Designer",
   JobGroup.mk 9 "Design·Content·Media" "video_producer" "Video Producer",
   JobGroup.mk 9 "Design·Content·Media" "content_strategist" "Content Strategist",
   JobGroup.mk 9 "Design·Content·Media" "creative_director" "Creative Director",
   JobGroup.mk 9 "Design·Content·Media" "editor" "Editor",
   JobGroup.mk 9 "Design·Content·Media" "multimedia_artist" "Multimedia Artist",
   JobGroup.mk 10 "Healthcare·Life Science" "physician" "Physician",
   JobGroup.mk 10 "Healthcare·Life Science" "nurse" "Nurse",
   JobGroup.mk 10 "Healthcare·Life Science" "medical_researcher" "Medical Researcher",
   JobGroup.mk 10 "Healthcare·Life Science" "clinical_data_manager" "Clinical Data Manager",
   JobGroup.mk 10 "Healthcare·Life Science" "biomedical_scientist" "Biomedical Scientist",
   JobGroup.mk 10 "Healthcare·Life Science" "public_health_analyst" "Public Health Analyst",
   JobGroup.mk 11 "Law·Compliance·Ethics" "lawyer" "Lawyer",
   JobGroup.mk 11 "Law·Compliance·Ethics" "legal_researcher" "Legal Researcher",
   JobGroup.mk 11 "Law·Compliance·Ethics" "compliance_manager" "Compliance Manager",
   JobGroup.mk 11 "Law·Compliance·Ethics" "ethics_officer" "Ethics Officer",
   JobGroup.mk 11 "Law·Compliance·Ethics" "regulatory_affairs_specialist" "Regulatory Affairs Specialist",
   JobGroup.mk 11 "Law·Compliance·Ethics" "contract_specialist" "Contract Specialist",
   JobGroup.mk 12 "Operations·Quality·Safety·Logistics" "operations_manager" "Operations Manager",
   JobGroup.mk 12 "Operations·Quality·Safety·Logistics" "quality_manager" "Quality Manager",
   JobGroup.mk 12 "Operations·Quality·Safety·Logistics" "safety_engineer" "Safety Engineer",
   JobGroup.mk 12 "Operations·Quality·Safety·Logistics" "process_analyst" "Process Analyst",
   JobGroup.mk 12 "Operations·Quality·Safety·Logistics" "supply_chain_analyst" "Supply Chain Analyst",
   JobGroup.mk 12 "Operations·Quality·Safety·Logistics" "logistics_planner" "Logistics Planner",
   JobGroup.mk 13 "Finance·Investment·Insurance" "investment_analyst" "Investment Analyst",
   JobGroup.mk 13 "Finance·Investment·Insurance" "portfolio_manager" "Portfolio Manager",
   JobGroup.mk 13 "Finance·Investment·Insurance" "credit_analyst" "Credit Analyst",
   JobGroup.mk 13 "Finance·Investment·Insurance" "actuary" "Actuary",
   JobGroup.mk 13 "Finance·Investment·Insurance" "insurance_underwriter" "Insurance Underwriter",
   JobGroup.mk 13 "Finance·Investment·Insurance" "treasury_manager" "Treasury Manager",
   JobGroup.mk 14 "Culture·HR·Organization" "hr_manager" "HR Manager",
   JobGroup.mk 14 "Culture·HR·Organization" "talent_manager" "Talent Manager",
   JobGroup.mk 14 "Culture·HR·Organization" "organizational_development_manager" "Organizational Development Manager",
   JobGroup.mk 14 "Culture·HR·Organization" "culture_manager" "Culture Manager",
   JobGroup.mk 14 "Culture·HR·Organization" "recruiter" "Recruiter",
   JobGroup.mk 14 "Culture·HR·Organization" "learning_and_development_specialist" "Learning & Development Specialist",
   JobGroup.mk 15 "Automation·Digital Agent" "rpa_agent" "RPA Agent",
   JobGroup.mk 15 "Automation·Digital Agent" "chatbot_operator" "Chatbot Operator",
   JobGroup.mk 15 "Automation·Digital Agent" "automated_qa_bot" "Automated QA Bot",
   JobGroup.mk 15 "Automation·Digital Agent" "report_generation_agent" "Report Generation Agent",
   JobGroup.mk 15 "Automation·Digital Agent" "monitoring_ai" "Monitoring AI"]
/-- `GROUP_ROLE_TEMPLATES`: each of the 15 templates ignores its context
argument and returns a constant string. -/
def groupRoleTemplate : ℕ → Option String
  | 1 => some "Strong in conceptual structuring and strategic direction setting, this profile is well suited for designing large-scale frameworks and guiding decision alignment across complex constraints."
  | 2 => some "Demonstrates data-oriented reasoning with strong pattern extraction and hypothesis testing capacity, making it effective for analytical modeling and evidence-driven problem solving."
  | 3 => some "Shows strength in system architecture and technical integration thinking, enabling efficient translation of requirements into structured, scalable solutions."
  | 4 => some "Excels in problem framing and value-oriented design, combining user perspective with iterative experimentation to refine innovative solutions."
  | 5 => some "Strong in knowledge structuring and explanatory reasoning, supporting effective learning design, conceptual clarity, and instructional organization."
  | 6 => some "Demonstrates contextual interpretation and interpersonal sensitivity, enabling adaptive responses to human behavior and emotionally grounded decision processes."
  | 7 => some "Shows integrative decision-making ability across multiple priorities, supporting leadership roles that require coordination, resource alignment, and long-term direction setting."
  | 8 => some "Strong in persuasive communication and audience-oriented reasoning, enabling effective message framing, influence strategies, and engagement optimization."
  | 9 => some "Demonstrates expressive structuring ability, translating abstract ideas into concrete forms and experiences through visual and narrative organization."
  | 10 => some "Exhibits evidence-based judgment and risk-aware reasoning, supporting decision making in environments requiring accuracy, safety, and procedural reliability."
  | 11 => some "Strong in rule-based reasoning and logical consistency evaluation, enabling precise interpretation of requirements, regulations, and structured argumentation."
  | 12 => some "Shows process optimization and operational stability thinking, supporting efficient workflow design, quality management, and error prevention."
  | 13 => some "Demonstrates quantitative judgment and probabilistic reasoning, enabling structured evaluation of risk, return, and financial decision scenarios."
  | 14 => some "Strong in organizational dynamics interpretation and human system design, supporting talent development, cultural alignment, and team effectiveness."
  | 15 => some "Shows procedural structuring and automation-oriented reasoning, enabling efficient decomposition of tasks into repeatable and monitorable workflows."
  | _ => none

/-- `JOB_INDEX[job_id]`: the index is built last-wins over unique ids, so a
first-match scan is equivalent. -/
def jobIndexFind (id : String) : Option JobGroup :=
  JOB_GROUPS.find? (fun j => j.job_id = id)

def rolesInGroup (groupName : String) : List String :=
  (JOB_GROUPS.filter (fun j => j.group_name = groupName)).map (fun j => j.job_name)

/-- `buildRoleFitInterpretation`: the per-group constant template, with the
generic fallback sentence for an unknown group id. -/
def buildRoleFitInterpretation (groupId : ℕ) (groupName recommendedRole : String) : String :=
  match groupRoleTemplate groupId with
  | some s => s
  | none => "Role fit is most aligned with " ++ groupName ++
      ", with strongest match for " ++ recommendedRole ++ "."

/-- One scored role of `computeRfsJobGroupTop3`. -/
structure ScoredRole where
  group_name : String
  job_name : String
  ok : Bool
  score : ℚ
deriving Repr, DecidableEq

/-- The group aggregation: insertion-ordered `groupMax`/`groupBestRole`
(first occurrence fixes the position; a strictly greater score updates both
the max and the best role). -/
def groupAggregate (finalPool : List ScoredRole) : List (String × ℚ × String) :=
  finalPool.foldl (fun acc r =>
    match acc.find? (fun g => g.1 = r.group_name) with
    | none => acc ++ [(r.group_name, r.score, r.job_name)]
    | some prev =>
        if r.score > prev.2.1 then
          acc.map (fun g => if g.1 = r.group_name then (g.1, r.score, r.job_name) else g)
        else acc) []

/-- `computeRfsJobGroupTop3`.  Throws (propagates) on: a `job_id` missing
from `JOB_INDEX`, a missing `min_requirements` record, invalid input axes,
and invalid weights — in the source's per-role evaluation order.  The group
sort comparator is score-descending with `localeCompare` name tie-break,
modelled as code-point string order (group names are pairwise distinct, so
the comparator is a strict total order and stability is irrelevant). -/
def computeRfsJobGroupTop3 (input : RoleFitInput) (roleConfigs : List RoleConfig)
    (strictMinFilter : Bool) : Except String Json := do
  let roleScored ← roleConfigs.mapM (fun cfg => do
    let job ← match jobIndexFind cfg.job_id with
      | some j => pure j
      | none => Except.error ("RoleConfig.job_id not found in JOB_INDEX: " ++ cfg.job_id)
    let ok ← checkMinRequirements input cfg
    let score ← scoreRoleFit01 input cfg
    pure (ScoredRole.mk job.group_name job.job_name ok score))
  let pool := if strictMinFilter then roleScored.filter (fun r => r.ok) else roleScored
  let finalPool := if pool.length > 0 then pool else roleScored
  let agg := groupAggregate finalPool
  let groups := agg.map (fun g => (g.1, clamp01 g.2.1))
  let sorted := sortJs (fun a b => a.2 > b.2 ∨ (a.2 = b.2 ∧ a.1 ≤ b.1)) groups
  let top3 := sorted.take 3
  let summary_lines := top3.map (fun g =>
    g.1 ++ ": " ++ toString (jsRound (g.2 * 100)) ++ "%")
  let top_groups := top3.map (fun g =>
    let percent := jsRound (g.2 * 100)
    let roles := rolesInGroup g.1
    let recommended := match agg.find? (fun e => e.1 = g.1) with
      | some e => e.2.2
      | none => match roles with
          | r :: _ => r
          | [] => g.1
    (g.1, percent, roles, recommended))
  let recommended_roles_top3 := top_groups.map (fun g => g.2.2.2)
  let recommended_roles_line :=
    "Recommended roles include: " ++ String.intercalate ", " recommended_roles_top3 ++ "."
  let top1GroupId : ℕ := match top_groups.head? with
    | some g => match JOB_GROUPS.find? (fun j => j.group_name = g.1) with
        | some j => j.group_id
        | none => 0
    | none => 0
  let pattern_interpretation :=
    if top1GroupId ≠ 0 then
      buildRoleFitInterpretation top1GroupId
        ((top_groups.head?.map (fun g => g.1)).getD "")
        ((top_groups.head?.map (fun g => g.2.2.2)).getD "")
    else ""
  pure (Json.obj [("rfs", Json.obj
    [("summary_lines", Json.arr ((summary_lines ++ [recommended_roles_line]).map Json.str)),
     ("top_groups", Json.arr (top_groups.map (fun g => Json.obj
       [("group_name", Json.str g.1),
        ("percent", Json.num (g.2.1 : ℤ)),
        ("roles", Json.arr (g.2.2.1.map Json.str)),
        ("recommended_role", Json.str g.2.2.2)]))),
     ("recommended_roles_top3", Json.arr (recommended_roles_top3.map Json.str)),
     ("recommended_roles_line", Json.str recommended_roles_line),
     ("pattern_interpretation", Json.str pattern_interpretation)])])

/-! ## `deriveRfs` orchestrator (rfs.ts lines 702-761) -/

/-- Read a JS value as the `NeuprintAxes` record: `undefined`/`null` make
every later property read throw (`none` here); property reads on other
primitives yield `undefined` without throwing. -/
def toNeuprintAxes (j : Json) : Option NeuprintAxes :=
  match j with
  | Json.null => none
  | Json.obj _ => some
      { analyticity := numFieldOpt j "analyticity", flow := numFieldOpt j "flow"
        metacognition := numFieldOpt j "metacognition", authenticity := numFieldOpt j "authenticity" }
  | _ => some {}

/-- Read a JS value as a `RoleConfig` (an absent/non-string `job_id` indexes
`JOB_INDEX` as the string "undefined"). -/
def toRoleConfig (j : Json) : RoleConfig :=
  { role_code := match j.getField "role_code" with
      | some (Json.str s) => s
      | _ => ""
    job_id := match j.getField "job_id" with
      | some (Json.str s) => s
      | _ => "undefined"
    onet_code := match j.getField "onet_code" with
      | some (Json.str s) => s
      | _ => ""
    oecd_core_skills := []
    neuprint_axes_weights := match j.getField "neuprint_axes_weights" with
      | some v => toNeuprintAxes v
      | none => none
    min_requirements := match j.getField "min_requirements" with
      | some (Json.obj _) =>
          let v := (j.getField "min_requirements").getD Json.null
          some { arc_level := numFieldOpt v "arc_level"
                 analyticity := numFieldOpt v "analyticity"
                 flow := numFieldOpt v "flow"
                 metacognition := numFieldOpt v "metacognition"
                 authenticity := numFieldOpt v "authenticity" }
      | some Json.null => none
      | some _ => some {}
      | none => none }

/-- `deriveRfs`.  When `role_configs` is a nonempty array the role-fit input
is `(style)?.rfs ?? ai?.rfs ?? {}` — the style record, which never carries
`axes`/`arc_level` — and the merge wraps the already-`rfs`-wrapped
`computeRfsJobGroupTop3` result in another `rfs` key, as the source does. -/
def deriveRfs (input : Json) : Except String Json := do
  let ai := analysisInputOf input
  let indicators := (Json.nn (input.getPath ["cff", "indicators"])
    (Json.nn (ai.getPath ["cff", "indicators"]) (some (Json.obj [])))).getD (Json.obj [])
  let payload := Json.obj [("cff", Json.obj
    [("aas", Json.num (numOfNN (Json.nn (indicators.getField "AAS") (indicators.getField "aas")))),
     ("ctf", Json.num (numOfNN (Json.nn (indicators.getField "CTF") (indicators.getField "ctf")))),
     ("rmd", Json.num (numOfNN (Json.nn (indicators.getField "RMD") (indicators.getField "rmd")))),
     ("rdx", Json.num (numOfNN (Json.nn (indicators.getField "RDX") (indicators.getField "rdx")))),
     ("eds", Json.num (numOfNN (Json.nn (indicators.getField "EDS") (indicators.getField "eds")))),
     ("ifd", Json.num (numOfNN (Json.nn (indicators.getField "IFD") (indicators.getField "ifd"))))])]
  let style := computeRfsFromPayload payload
  let roleConfigs := match ai.getField "role_configs" with
    | some (Json.arr xs) => xs
    | _ => []
  if roleConfigs.isEmpty then
    pure style
  else do
    let rfInputJson := (Json.nn (style.getPath ["rfs"])
      (Json.nn (ai.getField "rfs") (some (Json.obj [])))).getD (Json.obj [])
    let rfInput : RoleFitInput :=
      { axes := match rfInputJson.getField "axes" with
          | some v => toNeuprintAxes v
          | none => none
        arc_level := numFieldOpt rfInputJson "arc_level" }
    let roleFit ← computeRfsJobGroupTop3 rfInput (roleConfigs.map toRoleConfig) true
    pure (deepMergeAll [style, Json.obj [("rfs", roleFit)]])

/-! ## Top-level orchestrator (`derive.ts`) -/

/-- `derive`: run the four scorers in fixed order — RC sees the CFF output,
RFS sees CFF + RSL — then deep-merge the four partial reports. -/
def derive (input : Json) : Except String Json := do
  let a := deriveRsl input
  let b ← deriveCff input
  let c := deriveRc (spread2 input b)
  let d ← deriveRfs (spread2 (spread2 input b) a)
  pure (deepMergeAll [a, b, c, d])

/-! ## Normalised entropy (`Backend_4_SRI`, rfs.ts lines 1361-1370)

`entropy01` is embedded exactly, over `ℝ` with `Real.log` (counts stay in
`ℚ`, so the sanitisation and the probability vector are exact; only the
entropy itself is real-valued). -/

/-- `clamp01` over `ℝ`. -/
noncomputable def clamp01R (x : ℝ) : ℝ :=
  if x < 0 then 0 else if x > 1 then 1 else x

/-- `entropy01(counts)`: sanitise to the positive part, normalise to a
probability vector, and divide the Shannon entropy by `log(ps.length || 1)`
— the count of *positive* buckets, not the vector's length. -/
noncomputable def entropy01 (counts : List ℚ) : ℝ :=
  let xs := counts.map (fun v => if v > 0 then v else 0)
  let s := xs.sum
  if s ≤ 0 then 0
  else
    let ps := (xs.map (fun v => v / s)).filter (fun p => p > 0)
    let h : ℝ := -((ps.map (fun p => (p : ℝ) * Real.log (p : ℝ))).sum)
    let hMax : ℝ := Real.log ((if ps.length = 0 then 1 else ps.length : ℕ) : ℝ)
    if hMax ≤ 0 then 0 else clamp01R (h / hMax)

/-- Modelled from the spec: "Shannon entropy of a non-negative count vector,
normalized by max entropy for the vector's cardinality" — identical to
`entropy01` except that the normaliser is the logarithm of the *whole
vector's* length.  Used only to compare the spec's description against the
source's `entropy01`. -/
noncomputable def entropy01_spec (counts : List ℚ) : ℝ :=
  let xs := counts.map (fun v => if v > 0 then v else 0)
  let s := xs.sum
  if s ≤ 0 then 0
  else
    let ps := (xs.map (fun v => v / s)).filter (fun p => p > 0)
    let h : ℝ := -((ps.map (fun p => (p : ℝ) * Real.log (p : ℝ))).sum)
    let hMax : ℝ := Real.log ((if counts.length = 0 then 1 else counts.length : ℕ) : ℝ)
    if hMax ≤ 0 then 0 else clamp01R (h / hMax)

/-! ## Concrete inputs and expected outputs used by the claims -/

/-- The fully empty input `{}`. -/
def emptyObj : Json := Json.obj []

/-- A well-formed input carrying a (nested) `raw_features` record. -/
def rawInputC1 : Json := Json.obj [("raw_features", Json.obj
  [("layer_0", Json.obj [("units", Json.num 4), ("claims", Json.num 2),
     ("reasons", Json.num 2), ("evidence", Json.num 2)]),
   ("layer_1", Json.obj [("sub_claims", Json.num 1), ("warrants", Json.num 1),
     ("counterpoints", Json.num 0), ("refutations", Json.num 0)]),
   ("layer_2", Json.obj [("transitions", Json.num 3), ("transition_ok", Json.num 3),
     ("revisions", Json.num 1), ("revision_depth_sum", Json.num 1)]),
   ("layer_3", Json.obj [("intent_markers", Json.num 1), ("drift_segments", Json.num 0),
     ("hedges", Json.num 0), ("loops", Json.num 0),
     ("self_regulation_signals", Json.num 1)])])]

/-- The constant `final_type` record: `T2. Reflective Thinker` at
confidence 0.6 with the registry-fallback interpretation. -/
def t2FinalTypeJson : Json := Json.obj
  [("label", Json.str "T2. Reflective Thinker"),
   ("chip_label", Json.str "Reflective Thinker"),
   ("confidence", Json.num 0.6),
   ("interpretation", Json.str "Reflective Thinker reflects the dominant reasoning pattern inferred from the current indicator configuration.")]

/-- Expected `deriveRsl({})`: only the FRI block and the empty-cohort chart
(the level/rubric block is overwritten by the shallow assign). -/
def rslEmptyOut : Json := Json.obj [("rsl", Json.obj
  [("fri", Json.obj [("score", Json.num 0),
     ("interpretation", Json.str "Your reasoning structure is still taking shape. Ideas often appear separately, making connections harder to follow.")]),
   ("charts", Json.obj [("cohort_positioning", Json.obj
     [("current", Json.obj [("x", Json.num 0.5), ("y", Json.num 0)]),
      ("percentile_0to1", Json.num 0.5),
      ("top_percent_label", Json.str "Top 50%"),
      ("interpretation", Json.str "Core reasoning steps are emerging, with structure still developing compared to most peers.")])])])]

/-- Expected `deriveCff({})`: empty indicators, no observed patterns, and
the constant T2 final type. -/
def cffEmptyOut : Json := Json.obj [("cff", Json.obj
  [("indicators", Json.obj []),
   ("observed_patterns", Json.arr []),
   ("final_type", t2FinalTypeJson)])]

/-- Expected `deriveRc({})`: the signal library plus empty structural
control signals. -/
def rcEmptyOut : Json := Json.obj [("rc", Json.obj
  [("observed_structural_signals_library", buildSignalLibraryV1_S1toS18),
   ("structural_control_signals", Json.obj [])])]

/-- Expected `deriveRfs({})`: the all-zero style classification (style 9). -/
def rfsEmptyOut : Json := Json.obj [("rfs", Json.obj
  [("primary_pattern", Json.str "Linear Responder"),
   ("representative_phrase", Json.str "unstructured and linear")])]

/-- A role-fit input with all four axes valid (0.5) and arc level 5. -/
def rfInputC5 : RoleFitInput :=
  { axes := some { analyticity := some 0.5, flow := some 0.5
                   metacognition := some 0.5, authenticity := some 0.5 }
    arc_level := some 5 }

/-- A role config whose weights are perfectly valid (0.25 each, sum exactly
1) but whose `job_id` does not exist in `JOB_INDEX`. -/
def ghostCfg : RoleConfig :=
  { role_code := "GHOST", job_id := "ghost_job", onet_code := ""
    oecd_core_skills := []
    neuprint_axes_weights := some { analyticity := some 0.25, flow := some 0.25
                                    metacognition := some 0.25, authenticity := some 0.25 }
    min_requirements := some { arc_level := some 1 } }

/-- A merge target exercising all three key fates: `x` (object on both
sides), `y` (array overwritten by a scalar), `z` (key absent from the
source). -/
def c3target : List (String × Json) :=
  [("x", Json.obj [("a", Json.num 1)]), ("y", Json.arr [Json.num 1]), ("z", Json.num 3)]

/-- The matching merge source. -/
def c3source : List (String × Json) :=
  [("x", Json.obj [("b", Json.num 2)]), ("y", Json.num 7)]

/-- A concrete mid-scale level input (evidence present, both flags true). -/
def c6input : RSLLevelInput :=
  { coherence_rubric_0to5 := 2, structure_rubric_0to5 := 5
    evaluation_rubric_0to5 := 5, integration_rubric_0to5 := 5
    evidence_count := some 3, evidence_link_rate_0to1 := some 1
    has_counterpoint := some true, has_refutation := some true }

/-- The flag set `deriveRsl` uses. -/
def c6flags : RSLLevelFlags :=
  { strict_mode := false, evidence_required_for_L4plus := true, allow_L6 := true }

/-- The policy `deriveRsl` uses. -/
def c6policy : RSLLevelPolicy :=
  { gate_L2_min := 1, gate_L3_min := 2, gate_L4_min := 3, gate_L5_min := 4
    gate_L6_min := 5, min_evidence_count_for_L4plus := 2
    min_evidence_link_rate_for_L4plus := 0.3, strict_gate_bonus := 0
    l6_integration_min := 5 }

/-! ## Lemmas: association lists and the deep merge -/

namespace Json

theorem lookupJ_setKey_self (t : List (String × Json)) (k : String) (v : Json) :
    lookupJ (setKey t k v) k = some v := by
  induction t with
  | nil => simp [setKey, lookupJ]
  | cons hd tl ih =>
      by_cases h : hd.1 = k
      · simp [setKey, h, lookupJ]
      · simpa [setKey, h, lookupJ] using ih

theorem lookupJ_setKey_ne (t : List (String × Json)) (k k' : String) (v : Json)
    (h : k ≠ k') : lookupJ (setKey t k v) k' = lookupJ t k' := by
  induction t with
  | nil => simp [setKey, lookupJ, h]
  | cons hd tl ih =>
      by_cases hh : hd.1 = k
      · simp [setKey, hh, lookupJ, h]
      · simp only [setKey, hh, if_false, lookupJ]
        by_cases hk : hd.1 = k'
        · simp [hk]
        · simp [hk, ih]

theorem keys_setKey (t : List (String × Json)) (k : String) (v : Json) :
    (setKey t k v).map Prod.fst =
      if k ∈ t.map Prod.fst then t.map Prod.fst else t.map Prod.fst ++ [k] := by
  induction t with
  | nil => simp [setKey]
  | cons hd tl ih =>
      by_cases hh : hd.1 = k
      · simp [setKey, hh]
      · have hne : ¬ k = hd.1 := fun h => hh h.symm
        by_cases hk : k ∈ tl.map Prod.fst
        · simp [setKey, hh, ih, hne, hk]
        · simp [setKey, hh, ih, hne, hk]

theorem mem_keys_setKey (t : List (String × Json)) (k k' : String) (v : Json) :
    k' ∈ (setKey t k v).map Prod.fst ↔ k' ∈ t.map Prod.fst ∨ k' = k := by
  rw [keys_setKey]
  by_cases hk : k ∈ t.map Prod.fst
  · simp only [hk, if_true]
    constructor
    · exact Or.inl
    · rintro (h | rfl)
      · exact h
      · exact hk
  · simp [hk]

theorem lookupJ_eq_none_of_not_mem (t : List (String × Json)) (k : String)
    (h : k ∉ t.map Prod.fst) : lookupJ t k = none := by
  induction t with
  | nil => rfl
  | cons hd tl ih =>
      simp only [List.map_cons, List.mem_cons] at h
      push_neg at h
      have hne : hd.1 ≠ k := fun hh => h.1 hh.symm
      simp [lookupJ, hne, ih h.2]

end Json

/-- One-step unfolding of `mergeObjF` at positive fuel on a nonempty
source. -/
theorem mergeObjF_succ_cons (fuel : ℕ) (t rest : List (String × Json))
    (k : String) (sv : Json) :
    mergeObjF (fuel + 1) t ((k, sv) :: rest) =
      match Json.lookupJ t k, sv with
      | some (Json.obj tvs), Json.obj svs =>
          mergeObjF fuel (Json.setKey t k (Json.obj (mergeObjF fuel tvs svs))) rest
      | _, _ => mergeObjF fuel (Json.setKey t k sv) rest := rfl

/-- The fuel parameter of `mergeObjF` is irrelevant once it dominates the
size of the source object. -/
theorem mergeObjF_congr :
    ∀ (n m : ℕ) (t s : List (String × Json)),
    jsizeL s ≤ n → jsizeL s ≤ m → mergeObjF n t s = mergeObjF m t s := by
  intro n
  induction n with
  | zero =>
      intro m t s hn _
      cases s with
      | nil => simp [jsizeL] at hn
      | cons hd tl => simp [jsizeL] at hn
  | succ n ih =>
      intro m t s hn hm
      cases s with
      | nil =>
          cases m with
          | zero => simp [jsizeL] at hm
          | succ m => rfl
      | cons hd tl =>
          obtain ⟨k, sv⟩ := hd
          have hsz : jsizeL ((k, sv) :: tl) = 1 + jsize sv + jsizeL tl := rfl
          cases m with
          | zero => simp [jsizeL] at hm
          | succ m =>
              have htl : jsizeL tl ≤ n ∧ jsizeL tl ≤ m := by omega
              rw [mergeObjF_succ_cons, mergeObjF_succ_cons]
              cases hlt : Json.lookupJ t k with
              | none =>
                  cases sv <;> exact ih m _ tl htl.1 htl.2
              | some tv =>
                  cases tv <;> cases sv <;> try exact ih m _ tl htl.1 htl.2
                  rename_i tvs svs
                  have hobj : jsize (Json.obj svs) = 1 + jsizeL svs := rfl
                  have hsvs : jsizeL svs ≤ n ∧ jsizeL svs ≤ m := by omega
                  show mergeObjF n (Json.setKey t k (Json.obj (mergeObjF n tvs svs))) tl =
                    mergeObjF m (Json.setKey t k (Json.obj (mergeObjF m tvs svs))) tl
                  rw [ih m tvs svs hsvs.1 hsvs.2]
                  exact ih m _ tl htl.1 htl.2

/-- Unfolding lemma for a nonempty merge source. -/
theorem mergeObj_cons (t rest : List (String × Json)) (k : String) (sv : Json) :
    mergeObj t ((k, sv) :: rest) =
      mergeObj (Json.setKey t k (match Json.lookupJ t k, sv with
        | some (Json.obj tvs), Json.obj svs => Json.obj (mergeObj tvs svs)
        | _, _ => sv)) rest := by
  have hsz : jsizeL ((k, sv) :: rest) = (jsize sv + jsizeL rest) + 1 := by
    show 1 + jsize sv + jsizeL rest = _
    omega
  have hj1 : 1 ≤ jsize sv := by cases sv <;> simp [jsize]
  show mergeObjF (jsizeL ((k, sv) :: rest)) t ((k, sv) :: rest) = _
  rw [hsz, mergeObjF_succ_cons]
  have hrest : ∀ t', mergeObjF (jsize sv + jsizeL rest) t' rest = mergeObj t' rest := by
    intro t'
    exact mergeObjF_congr _ _ t' rest (by omega) le_rfl
  cases hlt : Json.lookupJ t k with
  | none => cases sv <;> simp [hrest, hlt]
  | some tv =>
      cases tv <;> cases sv <;> simp [hrest, hlt]
      rename_i tvs svs
      have hobj : jsize (Json.obj svs) = 1 + jsizeL svs := rfl
      rw [mergeObjF_congr _ (jsizeL svs) tvs svs (by omega) le_rfl]
      rfl

theorem mergeObj_nil (t : List (String × Json)) : mergeObj t [] = t := by
  rfl

/-- Key-lookup characterisation of one merge pass (the content of the
deep-merge contract): a key of the source is recursively merged when both
sides hold plain objects and overwritten by the source value otherwise,
while keys absent from the source keep their target binding. -/
theorem mergeObj_lookupJ (s : List (String × Json)) :
    ∀ (t : List (String × Json)) (k : String),
    (s.map Prod.fst).Nodup →
    Json.lookupJ (mergeObj t s) k =
      match Json.lookupJ s k, Json.lookupJ t k with
      | some sv, some tv =>
          some (match tv, sv with
            | Json.obj tvs, Json.obj svs => Json.obj (mergeObj tvs svs)
            | _, _ => sv)
      | some sv, none => some sv
      | none, _ => Json.lookupJ t k := by
  induction s with
  | nil =>
      intro t k _
      simp [mergeObj_nil, Json.lookupJ]
  | cons hd tl ih =>
      intro t k hnd
      obtain ⟨k0, sv0⟩ := hd
      simp only [List.map_cons, List.nodup_cons] at hnd
      obtain ⟨hk0, hnd⟩ := hnd
      rw [mergeObj_cons, ih _ k hnd]
      by_cases hk : k0 = k
      · subst hk
        have htl : Json.lookupJ tl k0 = none :=
          Json.lookupJ_eq_none_of_not_mem tl k0 hk0
        rw [htl, Json.lookupJ_setKey_self]
        have hhd : Json.lookupJ ((k0, sv0) :: tl) k0 = some sv0 := by
          simp [Json.lookupJ]
        rw [hhd]
        cases hlt : Json.lookupJ t k0 with
        | none => cases sv0 <;> simp
        | some tv => cases tv <;> cases sv0 <;> simp
      · have hhd : Json.lookupJ ((k0, sv0) :: tl) k = Json.lookupJ tl k := by
          simp [Json.lookupJ, hk]
        rw [Json.lookupJ_setKey_ne _ _ _ _ hk, hhd]

/-- Keys of a merged object: union of target and source keys. -/
theorem mem_keys_mergeObj (s : List (String × Json)) :
    ∀ (t : List (String × Json)) (k : String),
    k ∈ (mergeObj t s).map Prod.fst ↔ k ∈ t.map Prod.fst ∨ k ∈ s.map Prod.fst := by
  induction s with
  | nil =>
      intro t k
      simp [mergeObj_nil]
  | cons hd tl ih =>
      intro t k
      obtain ⟨k0, sv0⟩ := hd
      rw [mergeObj_cons, ih]
      rw [Json.mem_keys_setKey]
      simp only [List.map_cons, List.mem_cons]
      constructor
      · rintro ((h | h) | h)
        · exact Or.inl h
        · exact Or.inr (Or.inl h)
        · exact Or.inr (Or.inr h)
      · rintro (h | h | h)
        · exact Or.inl (Or.inl h)
        · exact Or.inl (Or.inr h)
        · exact Or.inr h

/-- A `deepMergeInto` fold from an object stays an object, and its keys are
the union of the start keys with the keys of every object source. -/
theorem foldl_deepMergeInto_keys (l : List Json) :
    ∀ (ts : List (String × Json)),
    ∃ es, l.foldl deepMergeInto (Json.obj ts) = Json.obj es ∧
      ∀ k, k ∈ es.map Prod.fst ↔ k ∈ ts.map Prod.fst ∨ ∃ x ∈ l, k ∈ x.topKeys := by
  induction l with
  | nil =>
      intro ts
      exact ⟨ts, rfl, by simp⟩
  | cons hd tl ih =>
      intro ts
      cases hd with
      | obj hs =>
          obtain ⟨es, he, hk⟩ := ih (mergeObj ts hs)
          refine ⟨es, ?_, ?_⟩
          · simpa [deepMergeInto] using he
          · intro k
            rw [hk k, mem_keys_mergeObj]
            simp only [List.mem_cons, Json.topKeys]
            constructor
            · rintro ((h | h) | h)
              · exact Or.inl h
              · exact Or.inr ⟨Json.obj hs, Or.inl rfl, h⟩
              · obtain ⟨x, hx, hkx⟩ := h
                exact Or.inr ⟨x, Or.inr hx, hkx⟩
            · rintro (h | ⟨x, hx | hx, hkx⟩)
              · exact Or.inl (Or.inl h)
              · subst hx
                exact Or.inl (Or.inr hkx)
              · exact Or.inr ⟨x, hx, hkx⟩
      | null =>
          obtain ⟨es, he, hk⟩ := ih ts
          exact ⟨es, by simpa [deepMergeInto] using he, by
            intro k
            rw [hk k]
            simp [Json.topKeys]⟩
      | bool b =>
          obtain ⟨es, he, hk⟩ := ih ts
          exact ⟨es, by simpa [deepMergeInto] using he, by
            intro k
            rw [hk k]
            simp [Json.topKeys]⟩
      | num q =>
          obtain ⟨es, he, hk⟩ := ih ts
          exact ⟨es, by simpa [deepMergeInto] using he, by
            intro k
            rw [hk k]
            simp [Json.topKeys]⟩
      | str s =>
          obtain ⟨es, he, hk⟩ := ih ts
          exact ⟨es, by simpa [deepMergeInto] using he, by
            intro k
            rw [hk k]
            simp [Json.topKeys]⟩
      | arr xs =>
          obtain ⟨es, he, hk⟩ := ih ts
          exact ⟨es, by simpa [deepMergeInto] using he, by
            intro k
            rw [hk k]
            simp [Json.topKeys]⟩

/-- Keys of `deepMergeAll`: union of the sources' keys. -/
theorem mem_topKeys_deepMergeAll (l : List Json) (k : String) :
    k ∈ (deepMergeAll l).topKeys ↔ ∃ x ∈ l, k ∈ x.topKeys := by
  obtain ⟨es, he, hk⟩ := foldl_deepMergeInto_keys l []
  rw [deepMergeAll, he]
  simpa [Json.topKeys] using hk k

/-! ## Lemmas: output shapes of the four scorers -/

/-- A successful `computeCFF6_v1` returns the bare six-indicator record —
in particular it never carries a `cff` key. -/
theorem computeCFF6_v1_shape (raw j : Json) (h : computeCFF6_v1 raw = Except.ok j) :
    ∃ a c r d e i, j = Json.obj [("AAS", Json.num a), ("CTF", Json.num c),
      ("RMD", Json.num r), ("RDX", Json.num d), ("EDS", Json.num e), ("IFD", Json.num i)] := by
  cases hev : evidenceTypesSize raw with
  | error msg => simp [computeCFF6_v1, hev, bind, Except.bind] at h
  | ok n =>
      simp only [computeCFF6_v1, hev, bind, Except.bind, pure, Except.pure,
        Except.ok.injEq] at h
      exact ⟨_, _, _, _, _, _, h.symm⟩

/-- The final determination on an empty indicator record is the constant
`T2. Reflective Thinker` at confidence 0.6. -/
theorem finalDet_t2 :
    computeFinalDeterminationCff (Json.obj []) true true =
      Json.obj [("cff", Json.obj [("final_type", t2FinalTypeJson)])] := by rfl

theorem finalDet_topKeys (ind : Json) (a b : Bool) :
    (computeFinalDeterminationCff ind a b).topKeys = ["cff"] := rfl

/-- `deriveRsl` always returns an object with the single top-level key
`rsl` (for any input whatsoever). -/
theorem deriveRsl_topKeys (input : Json) : (deriveRsl input).topKeys = ["rsl"] := rfl

theorem computeRfsFromPayload_topKeys (p : Json) :
    (computeRfsFromPayload p).topKeys = ["rfs"] := rfl

theorem deriveCff_mem_cff (input j : Json) (h : deriveCff input = Except.ok j) :
    "cff" ∈ j.topKeys := by
  cases hr : Json.truthyOpt (rawFeaturesOf (analysisInputOf input)) with
  | none =>
      simp only [deriveCff, hr, bind, Except.bind, pure, Except.pure,
        Except.ok.injEq] at h
      subst h
      rw [mem_topKeys_deepMergeAll]
      exact ⟨_, List.mem_cons_of_mem _ (List.mem_cons_of_mem _ (List.mem_cons_self _ _)),
        by rw [finalDet_topKeys]; simp⟩
  | some r =>
      cases hc : computeCFF6_v1 r with
      | error msg => simp [deriveCff, hr, hc, bind, Except.bind] at h
      | ok c =>
          simp only [deriveCff, hr, hc, bind, Except.bind, pure, Except.pure,
            Except.ok.injEq] at h
          subst h
          rw [mem_topKeys_deepMergeAll]
          exact ⟨_, List.mem_cons_of_mem _ (List.mem_cons_of_mem _ (List.mem_cons_self _ _)),
            by rw [finalDet_topKeys]; simp⟩

theorem deriveRc_mem_rc (input : Json) : "rc" ∈ (deriveRc input).topKeys := by
  simp only [deriveRc]
  rw [mem_topKeys_deepMergeAll]
  exact ⟨Json.obj [("rc", Json.obj [])],
    List.mem_cons_of_mem _ (List.mem_cons_of_mem _ (List.mem_cons_self _ _)),
    by simp [Json.topKeys]⟩

theorem deriveRfs_mem_rfs (input j : Json) (h : deriveRfs input = Except.ok j) :
    "rfs" ∈ j.topKeys := by
  simp only [deriveRfs, bind, Except.bind, pure, Except.pure] at h
  split at h
  · simp only [Except.ok.injEq] at h
    subst h
    rw [computeRfsFromPayload_topKeys]; simp
  · split at h
    · simp at h
    · simp only [Except.ok.injEq] at h
      subst h
      rw [mem_topKeys_deepMergeAll]
      exact ⟨_, List.mem_cons_of_mem _ (List.mem_cons_self _ _),
        by simp [Json.topKeys]⟩

/-! ## Lemmas: monotonicity of the RSL level ladder -/

theorem jsRound_le_jsRound {x y : ℚ} (h : x ≤ y) : jsRound x ≤ jsRound y :=
  Int.floor_le_floor (by linarith)

theorem clampInt0to5_le {x y : ℚ} (h : x ≤ y) : clampInt0to5 x ≤ clampInt0to5 y := by
  have := jsRound_le_jsRound h
  unfold clampInt0to5
  dsimp only
  split_ifs <;> omega

/-- Pointwise-weaker gates never yield a higher level (last passing gate
wins). -/
theorem levelIdx_levelFromGates_le : ∀ a2 a3 a4 a5 a6 b2 b3 b4 b5 b6 : Bool,
    (a2 = true → b2 = true) → (a3 = true → b3 = true) → (a4 = true → b4 = true) →
    (a5 = true → b5 = true) → (a6 = true → b6 = true) →
    levelIdx (levelFromGates ⟨a2, a3, a4, a5, a6⟩) ≤
      levelIdx (levelFromGates ⟨b2, b3, b4, b5, b6⟩) := by decide

theorem computeRSLLevel_level_eq (i : RSLLevelInput) (f : RSLLevelFlags) (p : RSLLevelPolicy) :
    (computeRSLLevel i f p).level = levelFromGates (computeRSLLevel i f p).gates := rfl

/-- The five gate booleans, read off the definition. -/
theorem computeRSLLevel_gates_eq (i : RSLLevelInput) (f : RSLLevelFlags) (p : RSLLevelPolicy) :
    (computeRSLLevel i f p).gates =
      { L2 := decide (((rubricMinOf i : ℤ) : ℚ) ≥ adjustedGate p.gate_L2_min f p)
        L3 := decide (((rubricMinOf i : ℤ) : ℚ) ≥ adjustedGate p.gate_L3_min f p)
        L4 := decide (((rubricMinOf i : ℤ) : ℚ) ≥ adjustedGate p.gate_L4_min f p) &&
          evidenceOK i p f
        L5 := (if f.strict_mode then
                (decide (((rubricMinOf i : ℤ) : ℚ) ≥ adjustedGate p.gate_L5_min f p) &&
                  evidenceOK i p f) &&
                  (boolOpt i.has_counterpoint || boolOpt i.has_refutation)
              else
                decide (((rubricMinOf i : ℤ) : ℚ) ≥ adjustedGate p.gate_L5_min f p) &&
                  evidenceOK i p f)
        L6 := f.allow_L6 &&
          (if f.strict_mode then
            (decide (((rubricMinOf i : ℤ) : ℚ) ≥ adjustedGate p.gate_L5_min f p) &&
              evidenceOK i p f) &&
              (boolOpt i.has_counterpoint || boolOpt i.has_refutation)
          else
            decide (((rubricMinOf i : ℤ) : ℚ) ≥ adjustedGate p.gate_L5_min f p) &&
              evidenceOK i p f) &&
          decide (((rubricMinOf i : ℤ) : ℚ) ≥ adjustedGate p.gate_L6_min f p) &&
          decide (((clampInt0to5 i.integration_rubric_0to5 : ℤ) : ℚ) ≥ p.l6_integration_min) } :=
  rfl

/-- Raising rubric dimensions (everything else fixed) never lowers the
level. -/
theorem computeRSLLevel_mono (i₁ i₂ : RSLLevelInput) (f : RSLLevelFlags) (p : RSLLevelPolicy)
    (hc : i₁.coherence_rubric_0to5 ≤ i₂.coherence_rubric_0to5)
    (hs : i₁.structure_rubric_0to5 ≤ i₂.structure_rubric_0to5)
    (he : i₁.evaluation_rubric_0to5 ≤ i₂.evaluation_rubric_0to5)
    (hi : i₁.integration_rubric_0to5 ≤ i₂.integration_rubric_0to5)
    (hev : i₁.evidence_count = i₂.evidence_count)
    (hlr : i₁.evidence_link_rate_0to1 = i₂.evidence_link_rate_0to1)
    (hcp : i₁.has_counterpoint = i₂.has_counterpoint)
    (hrf : i₁.has_refutation = i₂.has_refutation) :
    levelIdx (computeRSLLevel i₁ f p).level ≤ levelIdx (computeRSLLevel i₂ f p).level := by
  have hmin : rubricMinOf i₁ ≤ rubricMinOf i₂ :=
    min_le_min (min_le_min (clampInt0to5_le hc) (clampInt0to5_le hs))
      (min_le_min (clampInt0to5_le he) (clampInt0to5_le hi))
  have hminQ : ((rubricMinOf i₁ : ℤ) : ℚ) ≤ ((rubricMinOf i₂ : ℤ) : ℚ) := by exact_mod_cast hmin
  have hintQ : ((clampInt0to5 i₁.integration_rubric_0to5 : ℤ) : ℚ) ≤
      ((clampInt0to5 i₂.integration_rubric_0to5 : ℤ) : ℚ) := by
    exact_mod_cast clampInt0to5_le hi
  have hOK : evidenceOK i₁ p f = evidenceOK i₂ p f := by
    simp [evidenceOK, hev, hlr]
  rw [computeRSLLevel_level_eq, computeRSLLevel_level_eq,
    computeRSLLevel_gates_eq, computeRSLLevel_gates_eq]
  apply levelIdx_levelFromGates_le
  · intro hg
    rw [decide_eq_true_eq] at hg ⊢
    linarith
  · intro hg
    rw [decide_eq_true_eq] at hg ⊢
    linarith
  · simp only [Bool.and_eq_true, decide_eq_true_eq]
    rintro ⟨h1, h2⟩
    exact ⟨by linarith, hOK ▸ h2⟩
  · cases hsm : f.strict_mode
    · rw [if_neg Bool.false_ne_true, if_neg Bool.false_ne_true]
      simp only [Bool.and_eq_true, decide_eq_true_eq]
      rintro ⟨h1, h2⟩
      exact ⟨by linarith, hOK ▸ h2⟩
    · rw [if_pos rfl, if_pos rfl]
      simp only [Bool.and_eq_true, Bool.or_eq_true, decide_eq_true_eq]
      rintro ⟨⟨h1, h2⟩, h3⟩
      refine ⟨⟨by linarith, hOK ▸ h2⟩, ?_⟩
      rw [← hcp, ← hrf]
      exact h3
  · cases hsm : f.strict_mode
    · rw [if_neg Bool.false_ne_true, if_neg Bool.false_ne_true]
      simp only [Bool.and_eq_true, decide_eq_true_eq]
      rintro ⟨⟨⟨hal, h1, h2⟩, h6⟩, hint⟩
      exact ⟨⟨⟨hal, by linarith, hOK ▸ h2⟩, by linarith⟩, by linarith⟩
    · rw [if_pos rfl, if_pos rfl]
      simp only [Bool.and_eq_true, Bool.or_eq_true, decide_eq_true_eq]
      rintro ⟨⟨⟨hal, ⟨h1, h2⟩, h3⟩, h6⟩, hint⟩
      refine ⟨⟨⟨hal, ⟨by linarith, hOK ▸ h2⟩, ?_⟩, by linarith⟩, by linarith⟩
      rw [← hcp, ← hrf]
      exact h3

/-! ## Lemmas: the nearest-centroid fold -/

theorem euclideanSq_nonneg (a b : ControlVector) : 0 ≤ euclideanSq a b := by
  unfold euclideanSq
  positivity

/-- What the strict-update fold of `nearestCentroid` computes from a live
best distance: either no element beats `d` and the state is unchanged, or
the result is the first element attaining the running minimum — strictly
better than everything before it, no worse than everything after it. -/
theorem nearest_fold_spec (v : ControlVector) :
    ∀ (l : List (ControlPattern × ControlVector)) (b : ControlPattern) (d : ℚ),
    (l.foldl (fun acc pc =>
        let d := euclideanSq v pc.2
        match acc.2 with
        | none => (pc.1, some d)
        | some bd => if d < bd then (pc.1, some d) else acc) (b, some d) = (b, some d) ∧
      ∀ e ∈ l, d ≤ euclideanSq v e.2) ∨
    (∃ l₁ e l₂, l = l₁ ++ e :: l₂ ∧
      l.foldl (fun acc pc =>
        let d := euclideanSq v pc.2
        match acc.2 with
        | none => (pc.1, some d)
        | some bd => if d < bd then (pc.1, some d) else acc) (b, some d) =
        (e.1, some (euclideanSq v e.2)) ∧
      euclideanSq v e.2 < d ∧
      (∀ e' ∈ l₁, euclideanSq v e.2 < euclideanSq v e'.2) ∧
      (∀ e' ∈ l₂, euclideanSq v e.2 ≤ euclideanSq v e'.2)) := by
  intro l
  induction l with
  | nil =>
      intro b d
      left
      exact ⟨rfl, by simp⟩
  | cons x xs ih =>
      intro b d
      have hstep : List.foldl (fun acc pc =>
          let d := euclideanSq v pc.2
          match acc.2 with
          | none => (pc.1, some d)
          | some bd => if d < bd then (pc.1, some d) else acc) (b, some d) (x :: xs) =
        List.foldl (fun acc pc =>
          let d := euclideanSq v pc.2
          match acc.2 with
          | none => (pc.1, some d)
          | some bd => if d < bd then (pc.1, some d) else acc)
          (if euclideanSq v x.2 < d then (x.1, some (euclideanSq v x.2)) else (b, some d))
          xs := rfl
      rw [hstep]
      by_cases hx : euclideanSq v x.2 < d
      · rw [if_pos hx]
        rcases ih x.1 (euclideanSq v x.2) with ⟨heq, hall⟩ |
          ⟨l₁, e, l₂, hdec, heq, hlt, hpre, hpost⟩
        · right
          refine ⟨[], x, xs, by simp, heq, hx, by simp, hall⟩
        · right
          refine ⟨x :: l₁, e, l₂, by rw [hdec, List.cons_append], heq,
            lt_trans hlt hx, ?_, hpost⟩
          intro e2 he2
          rcases List.mem_cons.1 he2 with rfl | he2
          · exact hlt
          · exact hpre e2 he2
      · rw [if_neg hx]
        rcases ih b d with ⟨heq, hall⟩ | ⟨l₁, e, l₂, hdec, heq, hlt, hpre, hpost⟩
        · left
          refine ⟨heq, ?_⟩
          intro e2 he2
          rcases List.mem_cons.1 he2 with rfl | he2
          · exact not_lt.1 hx
          · exact hall e2 he2
        · right
          refine ⟨x :: l₁, e, l₂, by rw [hdec, List.cons_append], heq, hlt, ?_, hpost⟩
          intro e2 he2
          rcases List.mem_cons.1 he2 with rfl | he2
          · exact lt_of_lt_of_le hlt (not_lt.1 hx)
          · exact hpre e2 he2

/-- The squared-distance band thresholds agree with the source's 0.12/0.22
thresholds on the true (square-rooted) distance. -/
theorem bandFromDistanceSq_sqrt (d : ℚ) :
    bandFromDistanceSq d =
      (if Real.sqrt ((d : ℚ) : ℝ) < 0.12 then "HIGH"
       else if Real.sqrt ((d : ℚ) : ℝ) < 0.22 then "MEDIUM" else "LOW") := by
  have h1 : Real.sqrt ((d : ℚ) : ℝ) < 0.12 ↔ d < 0.0144 := by
    rw [Real.sqrt_lt' (by norm_num : (0 : ℝ) < 0.12)]
    rw [show (0.12 : ℝ) ^ 2 = ((0.0144 : ℚ) : ℝ) by norm_num]
    exact Rat.cast_lt
  have h2 : Real.sqrt ((d : ℚ) : ℝ) < 0.22 ↔ d < 0.0484 := by
    rw [Real.sqrt_lt' (by norm_num : (0 : ℝ) < 0.22)]
    rw [show (0.22 : ℝ) ^ 2 = ((0.0484 : ℚ) : ℝ) by norm_num]
    exact Rat.cast_lt
  rw [bandFromDistanceSq]
  by_cases hc1 : d < 0.0144
  · rw [if_pos hc1, if_pos (h1.2 hc1)]
  · rw [if_neg hc1, if_neg (fun hh => hc1 (h1.1 hh))]
    by_cases hc2 : d < 0.0484
    · rw [if_pos hc2, if_pos (h2.2 hc2)]
    · rw [if_neg hc2, if_neg (fun hh => hc2 (h2.1 hh))]

/-! ## Lemmas: role-fit weight validation -/

/-- `assertAxes01` succeeds exactly when all four axis properties hold
present values in the unit interval. -/
theorem assertAxes01_ok_iff (ax : NeuprintAxes) (lbl : String) :
    assertAxes01 (some ax) lbl = Except.ok () ↔
      isFinite01 ax.analyticity = true ∧ isFinite01 ax.flow = true ∧
      isFinite01 ax.metacognition = true ∧ isFinite01 ax.authenticity = true := by
  simp only [assertAxes01]
  split_ifs with h1 h2 h3 h4 <;>
    simp_all [pure, Except.pure, Bool.not_eq_true']

/-! ## Lemmas: entropy evaluations -/

theorem entropy01_nil : entropy01 [] = 0 := by
  simp [entropy01]

theorem entropy01_single_bucket : entropy01 [5, 0, 0, 0] = 0 := by
  have h1 : ([5, 0, 0, 0] : List ℚ).map (fun v => if v > 0 then v else 0) =
      [5, 0, 0, 0] := by norm_num
  have h2 : ¬ (([5, 0, 0, 0] : List ℚ).sum ≤ 0) := by norm_num
  rw [entropy01]
  rw [h1]
  rw [if_neg h2]
  have h3 : (([5, 0, 0, 0] : List ℚ).map (fun v => v / ([5, 0, 0, 0] : List ℚ).sum)).filter
      (fun p => p > 0) = [1] := by norm_num
  rw [h3]
  norm_num [Real.log_one]

theorem entropy01_all_nonpos (counts : List ℚ) (h : ∀ v ∈ counts, v ≤ 0) :
    entropy01 counts = 0 := by
  have hxs : (counts.map (fun v => if v > 0 then v else 0)).sum = 0 := by
    apply List.sum_eq_zero
    intro x hx
    obtain ⟨v, hv, rfl⟩ := List.mem_map.1 hx
    rw [if_neg (not_lt.2 (h v hv))]
  rw [entropy01, hxs]
  rw [if_pos le_rfl]

theorem entropy01_eq_spec_of_pos (counts : List ℚ) (h : ∀ v ∈ counts, 0 < v) :
    entropy01 counts = entropy01_spec counts := by
  by_cases hnil : counts = []
  · subst hnil
    simp [entropy01, entropy01_spec]
  · have hxs : counts.map (fun v => if v > 0 then v else 0) = counts := by
      rw [List.map_congr_left (fun x hx => if_pos (h x hx))]
      exact List.map_id' counts
    have hs : 0 < counts.sum := List.sum_pos counts h hnil
    have hps : (counts.map (fun v => v / counts.sum)).filter (fun p => p > 0) =
        counts.map (fun v => v / counts.sum) := by
      rw [List.filter_eq_self]
      intro x hx
      obtain ⟨v, hv, rfl⟩ := List.mem_map.1 hx
      exact decide_eq_true (div_pos (h v hv) hs)
    rw [entropy01, entropy01_spec, hxs, hps]
    dsimp only
    rw [List.length_map]

theorem entropy01_cex_code : entropy01 [1, 1, 0, 0] = 1 := by
  rw [entropy01]
  rw [show (([1, 1, 0, 0] : List ℚ).map (fun v => if v > 0 then v else 0)) =
    [1, 1, 0, 0] by norm_num]
  rw [if_neg (by norm_num : ¬(([1, 1, 0, 0] : List ℚ).sum ≤ 0))]
  rw [show (([1, 1, 0, 0] : List ℚ).map
      (fun v => v / ([1, 1, 0, 0] : List ℚ).sum)).filter (fun p => p > 0) =
    [1/2, 1/2] by norm_num]
  dsimp only
  rw [show (((if ([(1 : ℚ)/2, 1/2] : List ℚ).length = 0 then 1
      else ([(1 : ℚ)/2, 1/2] : List ℚ).length : ℕ)) : ℝ) = 2 by norm_num]
  rw [if_neg (not_le.2 (Real.log_pos one_lt_two))]
  have hsum : (List.map (fun p => p * Real.log p)
      (do let a ← ([(1 : ℚ)/2, 1/2] : List ℚ); pure ((a : ℝ)))).sum = -Real.log 2 := by
    show (((1 : ℚ)/2 : ℚ) * Real.log ((1 : ℚ)/2 : ℚ) +
      (((1 : ℚ)/2 : ℚ) * Real.log ((1 : ℚ)/2 : ℚ) + 0) : ℝ) = -Real.log 2
    push_cast
    rw [one_div, Real.log_inv]
    ring
  rw [hsum, neg_neg, div_self (ne_of_gt (Real.log_pos one_lt_two)), clamp01R]
  norm_num

theorem entropy01_cex_spec : entropy01_spec [1, 1, 0, 0] = 1 / 2 := by
  rw [entropy01_spec]
  rw [show (([1, 1, 0, 0] : List ℚ).map (fun v => if v > 0 then v else 0)) =
    [1, 1, 0, 0] by norm_num]
  rw [if_neg (by norm_num : ¬(([1, 1, 0, 0] : List ℚ).sum ≤ 0))]
  rw [show (([1, 1, 0, 0] : List ℚ).map
      (fun v => v / ([1, 1, 0, 0] : List ℚ).sum)).filter (fun p => p > 0) =
    [1/2, 1/2] by norm_num]
  dsimp only
  rw [show (((if ([1, 1, 0, 0] : List ℚ).length = 0 then 1
      else ([1, 1, 0, 0] : List ℚ).length : ℕ)) : ℝ) = 4 by norm_num]
  have hlog4 : Real.log 4 = 2 * Real.log 2 := by
    rw [show (4 : ℝ) = 2 ^ 2 by norm_num, Real.log_pow]
    push_cast
    ring
  rw [if_neg (not_le.2 (by rw [hlog4]; positivity))]
  have hsum : (List.map (fun p => p * Real.log p)
      (do let a ← ([(1 : ℚ)/2, 1/2] : List ℚ); pure ((a : ℝ)))).sum = -Real.log 2 := by
    show (((1 : ℚ)/2 : ℚ) * Real.log ((1 : ℚ)/2 : ℚ) +
      (((1 : ℚ)/2 : ℚ) * Real.log ((1 : ℚ)/2 : ℚ) + 0) : ℝ) = -Real.log 2
    push_cast
    rw [one_div, Real.log_inv]
    ring
  rw [hsum, neg_neg, hlog4, clamp01R]
  have h2 : Real.log 2 / (2 * Real.log 2) = 1 / 2 := by
    rw [div_eq_iff (by positivity)]
    ring
  rw [h2]
  norm_num

/-! ## The claims -/

/-- C1 (counterexample): on a well-formed `raw_features` input the report's
top-level keys are not exactly `rsl`, `cff`, `rc`, `rfs` — the six CFF
indicators (`AAS` … `IFD`), the pattern-layer fields and the agency
indicators all leak to the top level — and the `rsl` section carries no
`level` key (the shallow assign of the FRI block discards it). -/
theorem derive_output_shape_cex :
    (derive rawInputC1).map Json.topKeys =
      Except.ok ["rsl", "AAS", "CTF", "RMD", "RDX", "EDS", "IFD", "layer",
        "selection_rule", "all_profiles", "profiles", "cff", "rc",
        "structural_variance", "human_rhythm_index", "transition_flow",
        "revision_depth", "rfs"] ∧
    (deriveRsl rawInputC1).getPath ["rsl", "level"] = none :=
  ⟨rfl, rfl⟩

/-- C1 (amended): every successful `derive` run yields a single object whose
top-level keys *include* the four sections `rsl`, `cff`, `rc` and `rfs`
(they are not, in general, *exactly* these four, and the `rsl` section lacks
the level classification — see the counterexample). -/
theorem derive_top_sections (input j : Json) (h : derive input = Except.ok j) :
    "rsl" ∈ j.topKeys ∧ "cff" ∈ j.topKeys ∧ "rc" ∈ j.topKeys ∧ "rfs" ∈ j.topKeys := by
  cases hb : deriveCff input with
  | error e => simp [derive, hb, bind, Except.bind] at h
  | ok b =>
      cases hd : deriveRfs (spread2 (spread2 input b) (deriveRsl input)) with
      | error e => simp [derive, hb, hd, bind, Except.bind] at h
      | ok d =>
          simp only [derive, hb, hd, bind, Except.bind, pure, Except.pure,
            Except.ok.injEq] at h
          subst h
          refine ⟨?_, ?_, ?_, ?_⟩ <;> rw [mem_topKeys_deepMergeAll]
          · exact ⟨deriveRsl input, List.mem_cons_self _ _,
              by rw [deriveRsl_topKeys]; simp⟩
          · exact ⟨b, List.mem_cons_of_mem _ (List.mem_cons_self _ _),
              deriveCff_mem_cff input b hb⟩
          · exact ⟨deriveRc (spread2 input b),
              List.mem_cons_of_mem _ (List.mem_cons_of_mem _ (List.mem_cons_self _ _)),
              deriveRc_mem_rc _⟩
          · exact ⟨d, by simp, deriveRfs_mem_rfs _ d hd⟩

theorem derive_top_sections_witness :
    "rsl" ∈ (deepMergeAll [rslEmptyOut, cffEmptyOut, rcEmptyOut, rfsEmptyOut]).topKeys ∧
    "cff" ∈ (deepMergeAll [rslEmptyOut, cffEmptyOut, rcEmptyOut, rfsEmptyOut]).topKeys ∧
    "rc" ∈ (deepMergeAll [rslEmptyOut, cffEmptyOut, rcEmptyOut, rfsEmptyOut]).topKeys ∧
    "rfs" ∈ (deepMergeAll [rslEmptyOut, cffEmptyOut, rcEmptyOut, rfsEmptyOut]).topKeys :=
  derive_top_sections emptyObj _ rfl

set_option maxHeartbeats 1000000 in
/-- C2: for every input, the object `deriveCff` returns carries
`cff.final_type` equal to the constant record `T2. Reflective Thinker` /
`Reflective Thinker` / confidence 0.6 — the orchestrator reads indicators
from `cff6.cff.indicators`, a path that never exists on what
`computeCFF6_v1` returns, so the final determination always runs on an
empty indicator record and lands in the Human-track T2/0.6 fallback. -/
theorem cff_final_type_constant (input j : Json) (h : deriveCff input = Except.ok j) :
    j.getPath ["cff", "final_type"] = some t2FinalTypeJson := by
  cases hr : Json.truthyOpt (rawFeaturesOf (analysisInputOf input)) with
  | none =>
      simp only [deriveCff, hr, bind, Except.bind, pure, Except.pure,
        Except.ok.injEq] at h
      subst h
      rfl
  | some r =>
      cases hc : computeCFF6_v1 r with
      | error msg => simp [deriveCff, hr, hc, bind, Except.bind] at h
      | ok c =>
          obtain ⟨a, cv, rv, dv, ev, iv, rfl⟩ := computeCFF6_v1_shape r c hc
          simp only [deriveCff, hr, hc, bind, Except.bind, pure, Except.pure,
            Except.ok.injEq] at h
          rw [show (Json.nn ((Json.obj [("AAS", Json.num a), ("CTF", Json.num cv),
            ("RMD", Json.num rv), ("RDX", Json.num dv), ("EDS", Json.num ev),
            ("IFD", Json.num iv)]).getPath ["cff", "indicators"]) (some (Json.obj []))).getD
            (Json.obj []) = Json.obj [] from rfl, finalDet_t2] at h
          subst h
          rfl

theorem cff_final_type_constant_witness :
    cffEmptyOut.getPath ["cff", "final_type"] = some t2FinalTypeJson :=
  cff_final_type_constant emptyObj cffEmptyOut rfl

/-- C3: one deep-merge pass, characterised per key: a key held as a plain
object on both sides is merged recursively, any other key present in the
source is overwritten wholesale by the source value (arrays included — no
concatenation), and a key absent from the source keeps its target value. -/
theorem deep_merge_key_semantics (ta sb : List (String × Json)) (k : String)
    (hnd : (sb.map Prod.fst).Nodup) :
    (deepMergeInto (Json.obj ta) (Json.obj sb)).getField k =
      match Json.lookupJ sb k, Json.lookupJ ta k with
      | some sv, some tv =>
          some (match tv, sv with
            | Json.obj tvs, Json.obj svs => deepMergeInto (Json.obj tvs) (Json.obj svs)
            | _, _ => sv)
      | some sv, none => some sv
      | none, _ => Json.lookupJ ta k :=
  mergeObj_lookupJ sb ta k hnd

theorem deep_merge_key_semantics_witness :
    (deepMergeInto (Json.obj c3target) (Json.obj c3source)).getField "x" =
      some (Json.obj [("a", Json.num 1), ("b", Json.num 2)]) ∧
    (deepMergeInto (Json.obj c3target) (Json.obj c3source)).getField "y" =
      some (Json.num 7) ∧
    (deepMergeInto (Json.obj c3target) (Json.obj c3source)).getField "z" =
      some (Json.num 3) :=
  ⟨deep_merge_key_semantics c3target c3source "x" (by decide),
   deep_merge_key_semantics c3target c3source "y" (by decide),
   deep_merge_key_semantics c3target c3source "z" (by decide)⟩

/-- C4: each of the four scorers, applied to the fully empty input `{}`,
returns its default-shaped output (and, for the two fallible ones, returns
it successfully rather than throwing). -/
theorem scorers_total_on_empty_input :
    deriveRsl emptyObj = rslEmptyOut ∧
    deriveCff emptyObj = Except.ok cffEmptyOut ∧
    deriveRc emptyObj = rcEmptyOut ∧
    deriveRfs emptyObj = Except.ok rfsEmptyOut :=
  ⟨rfl, rfl, rfl, rfl⟩

/-- C5 (counterexample): weight validation is *not* the only intentional
throw — a role configuration whose weights are perfectly valid (0.25 each)
and whose input axes all pass the unit-interval check still makes
`computeRfsJobGroupTop3` throw when its `job_id` is absent from
`JOB_INDEX`. -/
theorem role_fit_throw_cex :
    computeRfsJobGroupTop3 rfInputC5 [ghostCfg] true =
      Except.error "RoleConfig.job_id not found in JOB_INDEX: ghost_job" ∧
    validateWeights ghostCfg.neuprint_axes_weights = Except.ok () ∧
    assertAxes01 rfInputC5.axes "input.axes" = Except.ok () :=
  ⟨rfl, rfl, rfl⟩

/-- C5 (amended): the weight validation succeeds exactly when all four
weights are present, each lies in `[0,1]`, and they sum to 1 within the
1e-6 tolerance — but it is not the only place the role-fit core throws
(see the counterexample). -/
theorem validateWeights_ok_iff (w : NeuprintAxes) :
    validateWeights (some w) = Except.ok () ↔
      ∃ a f m t : ℚ, w = ⟨some a, some f, some m, some t⟩ ∧
        0 ≤ a ∧ a ≤ 1 ∧ 0 ≤ f ∧ f ≤ 1 ∧ 0 ≤ m ∧ m ≤ 1 ∧ 0 ≤ t ∧ t ≤ 1 ∧
        |a + f + m + t - 1| ≤ 1 / 1000000 := by
  have h10 : (1.0 : ℚ) = 1 := by norm_num
  obtain ⟨oa, ofl, om, ot⟩ := w
  constructor
  · intro h
    cases hassert : assertAxes01 (some ⟨oa, ofl, om, ot⟩) "neuprint_axes_weights" with
    | error e =>
        rw [show validateWeights (some ⟨oa, ofl, om, ot⟩) = Except.error e by
          simp only [validateWeights, bind, Except.bind, hassert]] at h
        exact absurd h (by simp)
    | ok u =>
        obtain ⟨f1, f2, f3, f4⟩ := (assertAxes01_ok_iff ⟨oa, ofl, om, ot⟩ _).mp hassert
        revert h
        simp only [validateWeights, bind, Except.bind, hassert, Option.getD]
        intro h
        split_ifs at h with hgt
        cases oa with
        | none => simp [isFinite01] at f1
        | some a =>
          cases ofl with
          | none => simp [isFinite01] at f2
          | some f =>
            cases om with
            | none => simp [isFinite01] at f3
            | some m =>
              cases ot with
              | none => simp [isFinite01] at f4
              | some t =>
                have hb1 := of_decide_eq_true f1
                have hb2 := of_decide_eq_true f2
                have hb3 := of_decide_eq_true f3
                have hb4 := of_decide_eq_true f4
                refine ⟨a, f, m, t, rfl, hb1.1, hb1.2, hb2.1, hb2.2,
                  hb3.1, hb3.2, hb4.1, hb4.2, ?_⟩
                have hle := not_lt.1 hgt
                simpa using hle
  · rintro ⟨a, f, m, t, heq, ha0, ha1, hf0, hf1, hm0, hm1, ht0, ht1, hs⟩
    cases heq
    have hassert : assertAxes01 (some ⟨some a, some f, some m, some t⟩)
        "neuprint_axes_weights" = Except.ok () :=
      (assertAxes01_ok_iff _ _).mpr
        (by simp [isFinite01, ha0, ha1, hf0, hf1, hm0, hm1, ht0, ht1])
    simp only [validateWeights, bind, Except.bind, hassert, Option.getD]
    rw [if_neg (by rw [h10]; exact not_lt.2 hs)]
    rfl

/-- C6: the RSL level is monotone in each single rubric dimension —
raising coherence, structure, evaluation or integration while holding
everything else fixed never lowers the level in the order L1 < … < L6. -/
theorem rsl_level_monotone (inp : RSLLevelInput) (f : RSLLevelFlags) (p : RSLLevelPolicy)
    (x y : ℚ) (hxy : x ≤ y) :
    levelIdx (computeRSLLevel { inp with coherence_rubric_0to5 := x } f p).level ≤
      levelIdx (computeRSLLevel { inp with coherence_rubric_0to5 := y } f p).level ∧
    levelIdx (computeRSLLevel { inp with structure_rubric_0to5 := x } f p).level ≤
      levelIdx (computeRSLLevel { inp with structure_rubric_0to5 := y } f p).level ∧
    levelIdx (computeRSLLevel { inp with evaluation_rubric_0to5 := x } f p).level ≤
      levelIdx (computeRSLLevel { inp with evaluation_rubric_0to5 := y } f p).level ∧
    levelIdx (computeRSLLevel { inp with integration_rubric_0to5 := x } f p).level ≤
      levelIdx (computeRSLLevel { inp with integration_rubric_0to5 := y } f p).level := by
  refine ⟨?_, ?_, ?_, ?_⟩ <;> apply computeRSLLevel_mono <;> simp [hxy]

theorem rsl_level_monotone_witness :
    levelIdx (computeRSLLevel { c6input with coherence_rubric_0to5 := 0 } c6flags c6policy).level ≤
      levelIdx (computeRSLLevel { c6input with coherence_rubric_0to5 := 5 } c6flags c6policy).level ∧
    levelIdx (computeRSLLevel { c6input with structure_rubric_0to5 := 0 } c6flags c6policy).level ≤
      levelIdx (computeRSLLevel { c6input with structure_rubric_0to5 := 5 } c6flags c6policy).level ∧
    levelIdx (computeRSLLevel { c6input with evaluation_rubric_0to5 := 0 } c6flags c6policy).level ≤
      levelIdx (computeRSLLevel { c6input with evaluation_rubric_0to5 := 5 } c6flags c6policy).level ∧
    levelIdx (computeRSLLevel { c6input with integration_rubric_0to5 := 0 } c6flags c6policy).level ≤
      levelIdx (computeRSLLevel { c6input with integration_rubric_0to5 := 5 } c6flags c6policy).level :=
  rsl_level_monotone c6input c6flags c6policy 0 5 (by norm_num)

/-- C7: for every `(A,D,R)` vector in the unit cube the RC classifier
picks the centroid at minimal Euclidean distance among the nine registered
ones, resolving exact ties in favour of the first-registered centroid
(everything strictly earlier is strictly farther), and derives the
reliability band from that minimal distance with the 0.12 / 0.22
thresholds. -/
theorem rc_classifier_nearest (v : ControlVector)
    (hA0 : 0 ≤ v.A) (hA1 : v.A ≤ 1) (hD0 : 0 ≤ v.D) (hD1 : v.D ≤ 1)
    (hR0 : 0 ≤ v.R) (hR1 : v.R ≤ 1) :
    ∃ pre e post, CENTROIDS = pre ++ e :: post ∧
      (inferRCFromADR v).control_pattern = formatControlPatternLabel e.1 ∧
      (inferRCFromADR v).summary = (CONTROL_PATTERN_META e.1).pattern_description ∧
      (∀ c ∈ CENTROIDS, euclideanSq v e.2 ≤ euclideanSq v c.2) ∧
      (∀ c ∈ pre, euclideanSq v e.2 < euclideanSq v c.2) ∧
      (inferRCFromADR v).reliability_band =
        (if Real.sqrt ((euclideanSq v e.2 : ℚ) : ℝ) < 0.12 then "HIGH"
         else if Real.sqrt ((euclideanSq v e.2 : ℚ) : ℝ) < 0.22 then "MEDIUM" else "LOW") := by
  have hclamp : (⟨clamp01 v.A, clamp01 v.D, clamp01 v.R⟩ : ControlVector) = v := by
    have e1 : clamp01 v.A = v.A := by
      rw [clamp01, if_neg (not_lt.2 hA0), if_neg (not_lt.2 hA1)]
    have e2 : clamp01 v.D = v.D := by
      rw [clamp01, if_neg (not_lt.2 hD0), if_neg (not_lt.2 hD1)]
    have e3 : clamp01 v.R = v.R := by
      rw [clamp01, if_neg (not_lt.2 hR0), if_neg (not_lt.2 hR1)]
    rw [e1, e2, e3]
  have hcp : (inferRCFromADR v).control_pattern =
      formatControlPatternLabel (nearestCentroid v).1 := by
    simp only [inferRCFromADR, hclamp]
  have hsum : (inferRCFromADR v).summary =
      (CONTROL_PATTERN_META (nearestCentroid v).1).pattern_description := by
    simp only [inferRCFromADR, hclamp]
  have hband : (inferRCFromADR v).reliability_band =
      bandFromDistanceSq ((nearestCentroid v).2.getD 0) := by
    simp only [inferRCFromADR, hclamp]
  have hstart : nearestCentroid v =
      List.foldl (fun acc pc =>
        let d := euclideanSq v pc.2
        match acc.2 with
        | none => (pc.1, some d)
        | some bd => if d < bd then (pc.1, some d) else acc)
        (ControlPattern.deep_reflective_human,
          some (euclideanSq v ⟨0.85, 0.8, 0.8⟩)) CENTROIDS.tail := rfl
  rcases nearest_fold_spec v CENTROIDS.tail ControlPattern.deep_reflective_human
      (euclideanSq v ⟨0.85, 0.8, 0.8⟩) with ⟨heq, hall⟩ |
      ⟨l₁, e, l₂, hdec, heq, hlt, hpre, hpost⟩
  · refine ⟨[], (ControlPattern.deep_reflective_human, ⟨0.85, 0.8, 0.8⟩),
      CENTROIDS.tail, rfl, ?_, ?_, ?_, by simp, ?_⟩
    · rw [hcp, hstart, heq]
    · rw [hsum, hstart, heq]
    · intro c hc
      rcases List.mem_cons.1 hc with rfl | hc
      · exact le_refl _
      · exact hall c hc
    · rw [hband, hstart, heq, ← bandFromDistanceSq_sqrt]
      rfl
  · refine ⟨(ControlPattern.deep_reflective_human, ⟨0.85, 0.8, 0.8⟩) :: l₁, e, l₂,
      by rw [show CENTROIDS = (ControlPattern.deep_reflective_human,
        (⟨0.85, 0.8, 0.8⟩ : ControlVector)) :: CENTROIDS.tail from rfl, hdec,
        List.cons_append], ?_, ?_, ?_, ?_, ?_⟩
    · rw [hcp, hstart, heq]
    · rw [hsum, hstart, heq]
    · intro c hc
      rw [show CENTROIDS = (ControlPattern.deep_reflective_human,
        (⟨0.85, 0.8, 0.8⟩ : ControlVector)) :: CENTROIDS.tail from rfl] at hc
      rcases List.mem_cons.1 hc with rfl | hc
      · exact le_of_lt hlt
      · rw [hdec] at hc
        rcases List.mem_append.1 hc with hc | hc
        · exact le_of_lt (hpre c hc)
        · rcases List.mem_cons.1 hc with rfl | hc
          · exact le_refl _
          · exact hpost c hc
    · intro c hc
      rcases List.mem_cons.1 hc with rfl | hc
      · exact hlt
      · exact hpre c hc
    · rw [hband, hstart, heq, ← bandFromDistanceSq_sqrt]
      rfl

theorem rc_classifier_nearest_witness :
    ∃ pre e post, CENTROIDS = pre ++ e :: post ∧
      (inferRCFromADR ⟨0.8, 0.55, 0.6⟩).control_pattern = formatControlPatternLabel e.1 ∧
      (inferRCFromADR ⟨0.8, 0.55, 0.6⟩).summary =
        (CONTROL_PATTERN_META e.1).pattern_description ∧
      (∀ c ∈ CENTROIDS, euclideanSq ⟨0.8, 0.55, 0.6⟩ e.2 ≤ euclideanSq ⟨0.8, 0.55, 0.6⟩ c.2) ∧
      (∀ c ∈ pre, euclideanSq ⟨0.8, 0.55, 0.6⟩ e.2 < euclideanSq ⟨0.8, 0.55, 0.6⟩ c.2) ∧
      (inferRCFromADR ⟨0.8, 0.55, 0.6⟩).reliability_band =
        (if Real.sqrt ((euclideanSq ⟨0.8, 0.55, 0.6⟩ e.2 : ℚ) : ℝ) < 0.12 then "HIGH"
         else if Real.sqrt ((euclideanSq ⟨0.8, 0.55, 0.6⟩ e.2 : ℚ) : ℝ) < 0.22 then "MEDIUM"
         else "LOW") :=
  rc_classifier_nearest ⟨0.8, 0.55, 0.6⟩ (by norm_num) (by norm_num) (by norm_num)
    (by norm_num) (by norm_num) (by norm_num)

/-- C8 (counterexample): the source normalises by the entropy ceiling of the
*positive-bucket* count, not the vector's cardinality — on `[1,1,0,0]` the
code returns 1 (two positive buckets, `log 2 / log 2`) where the spec's
description gives 1/2 (`log 2 / log 4`). -/
theorem entropy01_norm_cex :
    entropy01 [1, 1, 0, 0] = 1 ∧ entropy01_spec [1, 1, 0, 0] = 1 / 2 ∧
    entropy01 [1, 1, 0, 0] ≠ entropy01_spec [1, 1, 0, 0] :=
  ⟨entropy01_cex_code, entropy01_cex_spec, by
    rw [entropy01_cex_code, entropy01_cex_spec]
    norm_num⟩

/-- C8 (amended): `entropy01` returns 0 on the empty vector, on the fully
concentrated vector `[5,0,0,0]`, and whenever no entry is positive; and it
matches the spec's description (normalisation by the vector's cardinality)
exactly when every bucket is positive — the normaliser is the logarithm of
the positive-bucket count. -/
theorem entropy01_zero_cases_and_normalisation :
    entropy01 [] = 0 ∧ entropy01 [5, 0, 0, 0] = 0 ∧
    (∀ counts : List ℚ, (∀ v ∈ counts, v ≤ 0) → entropy01 counts = 0) ∧
    (∀ counts : List ℚ, (∀ v ∈ counts, 0 < v) →
      entropy01 counts = entropy01_spec counts) :=
  ⟨entropy01_nil, entropy01_single_bucket, entropy01_all_nonpos, entropy01_eq_spec_of_pos⟩

/-- C9: with all four rubric inputs inside `[0,5]` the FRI score is exactly
`round2 (clamp((0.3·R3 + 0.4·R4 + 0.3·R5) · (0.85 + R6/5·0.3), 0, 5))`, and
the ceiling scenario holds: `CRS(5,5,5) = 5`, `RM(5) = 1.15`, product 5.75
pre-clamp, final score exactly 5. -/
theorem fri_formula (R3 R4 R5 R6 : ℚ)
    (h3 : 0 ≤ R3 ∧ R3 ≤ 5) (h4 : 0 ≤ R4 ∧ R4 ≤ 5)
    (h5 : 0 ≤ R5 ∧ R5 ≤ 5) (h6 : 0 ≤ R6 ∧ R6 ≤ 5) :
    friScoreOf R3 R4 R5 R6 =
      round2 (max 0 (min 5 ((0.3 * R3 + 0.4 * R4 + 0.3 * R5) * (0.85 + R6 / 5 * 0.3)))) ∧
    friCRS 5 5 5 = 5 ∧ friRM 5 = 1.15 ∧ friCRS 5 5 5 * friRM 5 = 5.75 ∧
    friScoreOf 5 5 5 5 = 5 ∧
    (computeFRI 5 5 5 5).getPath ["rsl", "fri", "score"] = some (Json.num 5) := by
  have e3 : clamp0to5 R3 = R3 := by rw [clamp0to5, min_eq_right h3.2, max_eq_right h3.1]
  have e4 : clamp0to5 R4 = R4 := by rw [clamp0to5, min_eq_right h4.2, max_eq_right h4.1]
  have e5 : clamp0to5 R5 = R5 := by rw [clamp0to5, min_eq_right h5.2, max_eq_right h5.1]
  have e6 : clamp0to5 R6 = R6 := by rw [clamp0to5, min_eq_right h6.2, max_eq_right h6.1]
  refine ⟨?_, rfl, rfl, rfl, rfl, rfl⟩
  rw [friScoreOf, friCRS, friRM, e3, e4, e5, e6, clamp0to5]

theorem fri_formula_witness :
    friScoreOf 1 2 3 4 =
      round2 (max 0 (min 5 ((0.3 * 1 + 0.4 * 2 + 0.3 * 3) * (0.85 + 4 / 5 * 0.3)))) ∧
    friCRS 5 5 5 = 5 ∧ friRM 5 = 1.15 ∧ friCRS 5 5 5 * friRM 5 = 5.75 ∧
    friScoreOf 5 5 5 5 = 5 ∧
    (computeFRI 5 5 5 5).getPath ["rsl", "fri", "score"] = some (Json.num 5) :=
  fri_formula 1 2 3 4 (by norm_num) (by norm_num) (by norm_num) (by norm_num)

/-- C10: `derive` is deterministic — the embedding is a pure function of the
input (no randomness, clock or shared mutable state survives in the model),
so two invocations on identical inputs yield identical reports. -/
theorem derive_deterministic (i j : Json) (h : i = j) : derive i = derive j :=
  congrArg derive h

theorem derive_deterministic_witness : derive emptyObj = derive emptyObj :=
  derive_deterministic emptyObj emptyObj rfl
